import Mathlib

/-
Verification of the TTtalker gateway core (umr-ds/TTtalker).

Shallow embedding of the Python sources under `ttcloud/ttt/`:
  * `packets.py`  — the binary packet codec (marshall / unmarshall),
  * `util.py`     — battery-voltage and temperature conversions,
  * `policy.py`   — the data policy (battery regression, gravity / movement /
                    stem-temperature / air-temperature anomaly checks),
  * `network_coordinator.py` — the talker-to-gateway coordinator,
  * `local_decision_engine.py` — per-gateway time-slot bookkeeping,
  * `aggregator.py` — the fleet-baseline aggregator.

Modelling conventions:
  * A wire byte is a `Nat`; `struct.pack` range errors never arise in the
    claims because every claim constrains packets by `wellFormed`, under
    which the `% 2^w` in the encoders is the identity.
  * Python exceptions raised by the modelled code (`KeyError` /
    `struct.error` inside `unmarshall`, `ZeroDivisionError`,
    `AttributeError`, `statistics.StatisticsError`) are embedded as
    `Except` error values.
  * Python `float` arithmetic is modelled over `ℚ` (exact); the 32-bit
    float fields of `LightSensorPacket` are modelled by their 32-bit wire
    words, so that the codec is exact on them.
-/

namespace TTT

/-- Decoding failures of `packets.unmarshall`: `struct.error` on a size
mismatch (truncated) and `KeyError` on an unknown 1-byte type tag. -/
inductive DecodeError
  | truncated
  | unknownTag
deriving DecidableEq, Repr

/-- Python runtime errors surfacing in the modelled code. -/
inductive PyError
  | zeroDivisionError
  | attributeError
  | statisticsError
deriving DecidableEq, Repr

/-- Decidable equality of `Except` results. -/
instance {e a : Type} [DecidableEq e] [DecidableEq a] : DecidableEq (Except e a) := fun x y =>
  match x, y with
  | .ok u, .ok v =>
    if h : u = v then .isTrue (by rw [h]) else .isFalse (by intro hc; cases hc; exact h rfl)
  | .error u, .error v =>
    if h : u = v then .isTrue (by rw [h]) else .isFalse (by intro hc; cases hc; exact h rfl)
  | .ok _, .error _ => .isFalse (by intro hc; cases hc)
  | .error _, .ok _ => .isFalse (by intro hc; cases hc)

/-! ### Little-endian field primitives (struct `=I`, `=H`, `=B`, `=h`) -/

/-- Value of a little-endian 16-bit unsigned field from its two bytes. -/
def u16v (a b : ℕ) : ℕ := a + 256 * b

/-- Value of a little-endian 32-bit unsigned field from its four bytes. -/
def u32v (a b c d : ℕ) : ℕ := a + 256 * b + 65536 * c + 16777216 * d

/-- Value of a little-endian 16-bit signed (`=h`) field from its two bytes. -/
def i16v (a b : ℕ) : ℤ :=
  if a + 256 * b < 32768 then (a + 256 * b : ℤ) else (a + 256 * b : ℤ) - 65536

/-- `pack "=H"`: two little-endian bytes. -/
def le16 (n : ℕ) : List ℕ := [n % 256, n / 256 % 256]

/-- `pack "=I"`: four little-endian bytes. -/
def le32 (n : ℕ) : List ℕ := [n % 256, n / 256 % 256, n / 65536 % 256, n / 16777216 % 256]

/-- `pack "=h"`: two little-endian bytes of the two's complement. -/
def le16i (i : ℤ) : List ℕ := le16 ((i % 65536).toNat)

/-- `pack "=B"` of a Python int field stored as `ℤ`. -/
def u8z (i : ℤ) : ℕ := (i % 256).toNat

/-- `pack "=H"` of a Python int field stored as `ℤ`. -/
def le16z (i : ℤ) : List ℕ := le16 ((i % 65536).toNat)

/-- `pack "=I"` of a Python int field stored as `ℤ`. -/
def le32z (i : ℤ) : List ℕ := le32 ((i % 4294967296).toNat)

/-! ### Packet variants (`packets.py`)

Each dataclass keeps its Python name and field names.  `packet_type` is the
per-variant constant tag (the dataclass default).  Unsigned wire fields are
`ℕ`; `=h` fields and the `TTCommand1` payload fields (Python ints) are `ℤ`. -/

/-- `TTHeloPacket` (tag 5). -/
structure TTHeloPacket where
  receiver_address : ℕ
  sender_address : ℕ
  packet_number : ℕ
deriving DecidableEq, Repr

/-- `TTCloudHeloPacket` (tag 65). -/
structure TTCloudHeloPacket where
  receiver_address : ℕ
  sender_address : ℕ
  command : ℕ
  time : ℕ
deriving DecidableEq, Repr

/-- `DataPacketRev32` (tag 77).  `temperature_reference` and
`temperature_heat` are the `(first word, second word)` pairs of the wire
format, as in the Python dataclass. -/
structure DataPacketRev32 where
  receiver_address : ℕ
  sender_address : ℕ
  packet_number : ℕ
  timestamp : ℕ
  growth_sensor : ℕ
  adc_bandgap : ℕ
  number_of_bits : ℕ
  air_relative_humidity : ℕ
  air_temperature : ℤ
  gravity_z_mean : ℤ
  gravity_z_derivation : ℤ
  gravity_y_mean : ℤ
  gravity_y_derivation : ℤ
  gravity_x_mean : ℤ
  gravity_x_derivation : ℤ
  StWC : ℕ
  adc_volt_bat : ℕ
  temperature_reference : ℕ × ℕ
  temperature_heat : ℕ × ℕ
deriving DecidableEq, Repr

/-- `DataPacketRev31` (tag 69). -/
structure DataPacketRev31 where
  receiver_address : ℕ
  sender_address : ℕ
  packet_number : ℕ
  timestamp : ℕ
  temperature_reference_cold : ℤ
  temperature_heat_cold : ℤ
  growth_sensor : ℕ
  voltage : ℕ
  number_of_bits : ℕ
  air_relative_humidity : ℕ
  air_temperature : ℤ
  gravity_z_mean : ℤ
  gravity_z_derivation : ℤ
  gravity_y_mean : ℤ
  gravity_y_derivation : ℤ
  gravity_x_mean : ℤ
  gravity_x_derivation : ℤ
  temperature_reference_hot : ℤ
  temperature_heat_hot : ℤ
  moisture : ℤ
deriving DecidableEq, Repr

/-- `LightSensorPacket` (tag 73).  The two wavelength dictionaries have the
fixed key sets {610..860} and {450..650}; each entry is one `=f` field,
modelled by its 32-bit little-endian wire word. -/
structure LightSensorPacket where
  receiver_address : ℕ
  sender_address : ℕ
  packet_number : ℕ
  timestamp : ℕ
  AS7263_610 : ℕ
  AS7263_680 : ℕ
  AS7263_730 : ℕ
  AS7263_760 : ℕ
  AS7263_810 : ℕ
  AS7263_860 : ℕ
  AS7262_450 : ℕ
  AS7262_500 : ℕ
  AS7262_550 : ℕ
  AS7262_570 : ℕ
  AS7262_600 : ℕ
  AS7262_650 : ℕ
  integration_time : ℕ
  gain : ℕ
deriving DecidableEq, Repr

/-- `TTCommand1` (tag 66), the reply to a data packet.  Fields are Python
ints (`ℤ`); on the wire they are `=B I H H H B B`. -/
structure TTCommand1 where
  receiver_address : ℕ
  sender_address : ℕ
  command : ℤ
  time : ℤ
  sleep_interval : ℤ
  unknown : ℤ
  heating : ℤ
  time_slot : ℤ
  time_slot_length : ℤ
deriving DecidableEq, Repr

/-- `TTCommand2` (tag 74), the reply to a light packet. -/
structure TTCommand2 where
  receiver_address : ℕ
  sender_address : ℕ
  command : ℕ
  time : ℕ
  integration_time : ℕ
  gain : ℕ
deriving DecidableEq, Repr

/-- The tagged packet union (the seven concrete `TTPacket` subclasses). -/
inductive TTPacket
  | helo (p : TTHeloPacket)
  | cloudHelo (p : TTCloudHeloPacket)
  | command1 (p : TTCommand1)
  | dataRev31 (p : DataPacketRev31)
  | light (p : LightSensorPacket)
  | command2 (p : TTCommand2)
  | dataRev32 (p : DataPacketRev32)
deriving DecidableEq, Repr

/-! ### marshall (the `pack` calls of `packets.py`) -/

/-- `TTHeloPacket.marshall`: `pack("=IIBB", recv, send, 5, packet_number)`. -/
def TTHeloPacket.marshall (p : TTHeloPacket) : List ℕ :=
  le32 p.receiver_address ++ le32 p.sender_address ++ [5, p.packet_number % 256]

/-- `TTCloudHeloPacket.marshall`: `pack("=IIBBI", recv, send, 65, command, time)`. -/
def TTCloudHeloPacket.marshall (p : TTCloudHeloPacket) : List ℕ :=
  le32 p.receiver_address ++ le32 p.sender_address ++ [65, p.command % 256] ++ le32 p.time

/-- `DataPacketRev32.marshall`: `pack("=IIBBIIIIIBBhhhhhhhIIHI", ...)`. -/
def DataPacketRev32.marshall (p : DataPacketRev32) : List ℕ :=
  le32 p.receiver_address ++ le32 p.sender_address ++ [77, p.packet_number % 256] ++
  le32 p.timestamp ++ le32 p.temperature_reference.1 ++ le32 p.temperature_heat.1 ++
  le32 p.growth_sensor ++ le32 p.adc_bandgap ++
  [p.number_of_bits % 256, p.air_relative_humidity % 256] ++
  le16i p.air_temperature ++
  le16i p.gravity_z_mean ++ le16i p.gravity_z_derivation ++
  le16i p.gravity_y_mean ++ le16i p.gravity_y_derivation ++
  le16i p.gravity_x_mean ++ le16i p.gravity_x_derivation ++
  le32 p.temperature_reference.2 ++ le32 p.temperature_heat.2 ++
  le16 p.StWC ++ le32 p.adc_volt_bat

/-- `DataPacketRev31.marshall`: `pack("=IIBBIhhIIBBhhhhhhhhhh", ...)`. -/
def DataPacketRev31.marshall (p : DataPacketRev31) : List ℕ :=
  le32 p.receiver_address ++ le32 p.sender_address ++ [69, p.packet_number % 256] ++
  le32 p.timestamp ++
  le16i p.temperature_reference_cold ++ le16i p.temperature_heat_cold ++
  le32 p.growth_sensor ++ le32 p.voltage ++
  [p.number_of_bits % 256, p.air_relative_humidity % 256] ++
  le16i p.air_temperature ++
  le16i p.gravity_z_mean ++ le16i p.gravity_z_derivation ++
  le16i p.gravity_y_mean ++ le16i p.gravity_y_derivation ++
  le16i p.gravity_x_mean ++ le16i p.gravity_x_derivation ++
  le16i p.temperature_reference_hot ++ le16i p.temperature_heat_hot ++
  le16i p.moisture

/-- `LightSensorPacket.marshall`: `pack("=IIBBIffffffffffffBB", ...)`. -/
def LightSensorPacket.marshall (p : LightSensorPacket) : List ℕ :=
  le32 p.receiver_address ++ le32 p.sender_address ++ [73, p.packet_number % 256] ++
  le32 p.timestamp ++
  le32 p.AS7263_610 ++ le32 p.AS7263_680 ++ le32 p.AS7263_730 ++
  le32 p.AS7263_760 ++ le32 p.AS7263_810 ++ le32 p.AS7263_860 ++
  le32 p.AS7262_450 ++ le32 p.AS7262_500 ++ le32 p.AS7262_550 ++
  le32 p.AS7262_570 ++ le32 p.AS7262_600 ++ le32 p.AS7262_650 ++
  [p.integration_time % 256, p.gain % 256]

/-- `TTCommand1.marshall`: `pack("=IIBBIHHHBB", recv, send, 66, command, time,
sleep_interval, unknown, heating, time_slot_length, time_slot)`. -/
def TTCommand1.marshall (p : TTCommand1) : List ℕ :=
  le32 p.receiver_address ++ le32 p.sender_address ++ [66, u8z p.command] ++
  le32z p.time ++ le16z p.sleep_interval ++ le16z p.unknown ++ le16z p.heating ++
  [u8z p.time_slot_length, u8z p.time_slot]

/-- `TTCommand2.marshall`: `pack("=IIBBIBB", recv, send, 74, command, time,
integration_time, gain)`. -/
def TTCommand2.marshall (p : TTCommand2) : List ℕ :=
  le32 p.receiver_address ++ le32 p.sender_address ++ [74, p.command % 256] ++
  le32 p.time ++ [p.integration_time % 256, p.gain % 256]

/-- `marshall` of the union, dispatching on the concrete class. -/
def TTPacket.marshall : TTPacket → List ℕ
  | .helo p => p.marshall
  | .cloudHelo p => p.marshall
  | .command1 p => p.marshall
  | .dataRev31 p => p.marshall
  | .light p => p.marshall
  | .command2 p => p.marshall
  | .dataRev32 p => p.marshall

/-! ### unmarshall (the `unpack` calls of `packets.py`)

Each variant `unmarshall` models `unpack(fmt, raw_stream.read())`: the
remaining byte count must be exactly the format size (otherwise
`struct.error`, i.e. a truncated error), and fields sit at fixed offsets. -/

/-- `TTHeloPacket.unmarshall`: payload `=B` (1 byte). -/
def TTHeloPacket.unmarshall (receiver_address sender_address : ℕ)
    (rest : List ℕ) : Except DecodeError TTPacket :=
  if rest.length = 1 then
    .ok (.helo
      { receiver_address := receiver_address, sender_address := sender_address, packet_number := rest.getD 0 0 })
  else .error .truncated

/-- `TTCloudHeloPacket.unmarshall`: payload `=BI` (5 bytes). -/
def TTCloudHeloPacket.unmarshall (receiver_address sender_address : ℕ)
    (rest : List ℕ) : Except DecodeError TTPacket :=
  if rest.length = 5 then
    .ok (.cloudHelo
      { receiver_address := receiver_address, sender_address := sender_address,
        command := rest.getD 0 0,
        time := u32v (rest.getD 1 0) (rest.getD 2 0) (rest.getD 3 0) (rest.getD 4 0) })
  else .error .truncated

/-- `TTCommand1.unmarshall`: payload `=BIHHHBB` (13 bytes). -/
def TTCommand1.unmarshall (receiver_address sender_address : ℕ)
    (rest : List ℕ) : Except DecodeError TTPacket :=
  if rest.length = 13 then
    .ok (.command1
      { receiver_address := receiver_address, sender_address := sender_address,
        command := (rest.getD 0 0 : ℤ),
        time := (u32v (rest.getD 1 0) (rest.getD 2 0) (rest.getD 3 0) (rest.getD 4 0) : ℤ),
        sleep_interval := (u16v (rest.getD 5 0) (rest.getD 6 0) : ℤ),
        unknown := (u16v (rest.getD 7 0) (rest.getD 8 0) : ℤ),
        heating := (u16v (rest.getD 9 0) (rest.getD 10 0) : ℤ),
        time_slot_length := (rest.getD 11 0 : ℤ),
        time_slot := (rest.getD 12 0 : ℤ) })
  else .error .truncated

/-- `DataPacketRev31.unmarshall`: payload `=BIhhIIBBhhhhhhhhhh` (39 bytes). -/
def DataPacketRev31.unmarshall (receiver_address sender_address : ℕ)
    (rest : List ℕ) : Except DecodeError TTPacket :=
  if rest.length = 39 then
    .ok (.dataRev31
      { receiver_address := receiver_address, sender_address := sender_address,
        packet_number := rest.getD 0 0,
        timestamp := u32v (rest.getD 1 0) (rest.getD 2 0) (rest.getD 3 0) (rest.getD 4 0),
        temperature_reference_cold := i16v (rest.getD 5 0) (rest.getD 6 0),
        temperature_heat_cold := i16v (rest.getD 7 0) (rest.getD 8 0),
        growth_sensor := u32v (rest.getD 9 0) (rest.getD 10 0) (rest.getD 11 0) (rest.getD 12 0),
        voltage := u32v (rest.getD 13 0) (rest.getD 14 0) (rest.getD 15 0) (rest.getD 16 0),
        number_of_bits := rest.getD 17 0,
        air_relative_humidity := rest.getD 18 0,
        air_temperature := i16v (rest.getD 19 0) (rest.getD 20 0),
        gravity_z_mean := i16v (rest.getD 21 0) (rest.getD 22 0),
        gravity_z_derivation := i16v (rest.getD 23 0) (rest.getD 24 0),
        gravity_y_mean := i16v (rest.getD 25 0) (rest.getD 26 0),
        gravity_y_derivation := i16v (rest.getD 27 0) (rest.getD 28 0),
        gravity_x_mean := i16v (rest.getD 29 0) (rest.getD 30 0),
        gravity_x_derivation := i16v (rest.getD 31 0) (rest.getD 32 0),
        temperature_reference_hot := i16v (rest.getD 33 0) (rest.getD 34 0),
        temperature_heat_hot := i16v (rest.getD 35 0) (rest.getD 36 0),
        moisture := i16v (rest.getD 37 0) (rest.getD 38 0) })
  else .error .truncated

/-- `DataPacketRev32.unmarshall`: payload `=BIIIIIBBhhhhhhhIIHI` (51 bytes). -/
def DataPacketRev32.unmarshall (receiver_address sender_address : ℕ)
    (rest : List ℕ) : Except DecodeError TTPacket :=
  if rest.length = 51 then
    .ok (.dataRev32
      { receiver_address := receiver_address, sender_address := sender_address,
        packet_number := rest.getD 0 0,
        timestamp := u32v (rest.getD 1 0) (rest.getD 2 0) (rest.getD 3 0) (rest.getD 4 0),
        growth_sensor := u32v (rest.getD 13 0) (rest.getD 14 0) (rest.getD 15 0) (rest.getD 16 0),
        adc_bandgap := u32v (rest.getD 17 0) (rest.getD 18 0) (rest.getD 19 0) (rest.getD 20 0),
        number_of_bits := rest.getD 21 0,
        air_relative_humidity := rest.getD 22 0,
        air_temperature := i16v (rest.getD 23 0) (rest.getD 24 0),
        gravity_z_mean := i16v (rest.getD 25 0) (rest.getD 26 0),
        gravity_z_derivation := i16v (rest.getD 27 0) (rest.getD 28 0),
        gravity_y_mean := i16v (rest.getD 29 0) (rest.getD 30 0),
        gravity_y_derivation := i16v (rest.getD 31 0) (rest.getD 32 0),
        gravity_x_mean := i16v (rest.getD 33 0) (rest.getD 34 0),
        gravity_x_derivation := i16v (rest.getD 35 0) (rest.getD 36 0),
        StWC := u16v (rest.getD 45 0) (rest.getD 46 0),
        adc_volt_bat := u32v (rest.getD 47 0) (rest.getD 48 0) (rest.getD 49 0) (rest.getD 50 0),
        temperature_reference :=
          (u32v (rest.getD 5 0) (rest.getD 6 0) (rest.getD 7 0) (rest.getD 8 0),
           u32v (rest.getD 37 0) (rest.getD 38 0) (rest.getD 39 0) (rest.getD 40 0)),
        temperature_heat :=
          (u32v (rest.getD 9 0) (rest.getD 10 0) (rest.getD 11 0) (rest.getD 12 0),
           u32v (rest.getD 41 0) (rest.getD 42 0) (rest.getD 43 0) (rest.getD 44 0)) })
  else .error .truncated

/-- `LightSensorPacket.unmarshall`: payload `=BIffffffffffffBB` (55 bytes). -/
def LightSensorPacket.unmarshall (receiver_address sender_address : ℕ)
    (rest : List ℕ) : Except DecodeError TTPacket :=
  if rest.length = 55 then
    .ok (.light
      { receiver_address := receiver_address, sender_address := sender_address,
        packet_number := rest.getD 0 0,
        timestamp := u32v (rest.getD 1 0) (rest.getD 2 0) (rest.getD 3 0) (rest.getD 4 0),
        AS7263_610 := u32v (rest.getD 5 0) (rest.getD 6 0) (rest.getD 7 0) (rest.getD 8 0),
        AS7263_680 := u32v (rest.getD 9 0) (rest.getD 10 0) (rest.getD 11 0) (rest.getD 12 0),
        AS7263_730 := u32v (rest.getD 13 0) (rest.getD 14 0) (rest.getD 15 0) (rest.getD 16 0),
        AS7263_760 := u32v (rest.getD 17 0) (rest.getD 18 0) (rest.getD 19 0) (rest.getD 20 0),
        AS7263_810 := u32v (rest.getD 21 0) (rest.getD 22 0) (rest.getD 23 0) (rest.getD 24 0),
        AS7263_860 := u32v (rest.getD 25 0) (rest.getD 26 0) (rest.getD 27 0) (rest.getD 28 0),
        AS7262_450 := u32v (rest.getD 29 0) (rest.getD 30 0) (rest.getD 31 0) (rest.getD 32 0),
        AS7262_500 := u32v (rest.getD 33 0) (rest.getD 34 0) (rest.getD 35 0) (rest.getD 36 0),
        AS7262_550 := u32v (rest.getD 37 0) (rest.getD 38 0) (rest.getD 39 0) (rest.getD 40 0),
        AS7262_570 := u32v (rest.getD 41 0) (rest.getD 42 0) (rest.getD 43 0) (rest.getD 44 0),
        AS7262_600 := u32v (rest.getD 45 0) (rest.getD 46 0) (rest.getD 47 0) (rest.getD 48 0),
        AS7262_650 := u32v (rest.getD 49 0) (rest.getD 50 0) (rest.getD 51 0) (rest.getD 52 0),
        integration_time := rest.getD 53 0,
        gain := rest.getD 54 0 })
  else .error .truncated

/-- `TTCommand2.unmarshall`: payload `=BIBB` (7 bytes). -/
def TTCommand2.unmarshall (receiver_address sender_address : ℕ)
    (rest : List ℕ) : Except DecodeError TTPacket :=
  if rest.length = 7 then
    .ok (.command2
      { receiver_address := receiver_address, sender_address := sender_address,
        command := rest.getD 0 0,
        time := u32v (rest.getD 1 0) (rest.getD 2 0) (rest.getD 3 0) (rest.getD 4 0),
        integration_time := rest.getD 5 0,
        gain := rest.getD 6 0 })
  else .error .truncated

/-- The keys of `PACKET_TYPES`. -/
def KNOWN_TAGS : List ℕ := [5, 65, 66, 69, 73, 74, 77]

/-- The exact payload byte count each variant parser consumes. -/
def PAYLOAD_SIZES (tag : ℕ) : ℕ :=
  if tag = 5 then 1
  else if tag = 65 then 5
  else if tag = 66 then 13
  else if tag = 69 then 39
  else if tag = 73 then 55
  else if tag = 74 then 7
  else if tag = 77 then 51
  else 0

/-- `unmarshall(raw)`: read the 9-byte header `=IIB` (fewer bytes is a
`struct.error`, i.e. truncated), dispatch on the tag through `PACKET_TYPES`
(a missing key is a `KeyError`, i.e. an unknown-tag error), and hand the
remaining bytes to the variant parser. -/
def unmarshall (raw : List ℕ) : Except DecodeError TTPacket :=
  match raw with
  | r0 :: r1 :: r2 :: r3 :: s0 :: s1 :: s2 :: s3 :: tag :: rest =>
    let receiver := u32v r0 r1 r2 r3
    let sender := u32v s0 s1 s2 s3
    if tag = 5 then TTHeloPacket.unmarshall receiver sender rest
    else if tag = 65 then TTCloudHeloPacket.unmarshall receiver sender rest
    else if tag = 66 then TTCommand1.unmarshall receiver sender rest
    else if tag = 69 then DataPacketRev31.unmarshall receiver sender rest
    else if tag = 73 then LightSensorPacket.unmarshall receiver sender rest
    else if tag = 74 then TTCommand2.unmarshall receiver sender rest
    else if tag = 77 then DataPacketRev32.unmarshall receiver sender rest
    else .error .unknownTag
  | _ => .error .truncated

/-! ### Well-formedness: every field fits its wire width -/

/-- A 16-bit signed field is in range. -/
def i16ok (i : ℤ) : Bool := decide (-32768 ≤ i) && decide (i < 32768)

/-- An unsigned Python-int field (stored as `ℤ`) fits `w` bits. -/
def uzok (i : ℤ) (bound : ℤ) : Bool := decide (0 ≤ i) && decide (i < bound)

/-- Every field of the packet fits its wire width (`pack` would accept it). -/
def TTPacket.wellFormed : TTPacket → Bool
  | .helo p =>
      p.receiver_address < 4294967296 && p.sender_address < 4294967296 &&
      p.packet_number < 256
  | .cloudHelo p =>
      p.receiver_address < 4294967296 && p.sender_address < 4294967296 &&
      p.command < 256 && p.time < 4294967296
  | .command1 p =>
      p.receiver_address < 4294967296 && p.sender_address < 4294967296 &&
      uzok p.command 256 && uzok p.time 4294967296 && uzok p.sleep_interval 65536 &&
      uzok p.unknown 65536 && uzok p.heating 65536 &&
      uzok p.time_slot_length 256 && uzok p.time_slot 256
  | .dataRev31 p =>
      p.receiver_address < 4294967296 && p.sender_address < 4294967296 &&
      p.packet_number < 256 && p.timestamp < 4294967296 &&
      i16ok p.temperature_reference_cold && i16ok p.temperature_heat_cold &&
      p.growth_sensor < 4294967296 && p.voltage < 4294967296 &&
      p.number_of_bits < 256 && p.air_relative_humidity < 256 &&
      i16ok p.air_temperature &&
      i16ok p.gravity_z_mean && i16ok p.gravity_z_derivation &&
      i16ok p.gravity_y_mean && i16ok p.gravity_y_derivation &&
      i16ok p.gravity_x_mean && i16ok p.gravity_x_derivation &&
      i16ok p.temperature_reference_hot && i16ok p.temperature_heat_hot &&
      i16ok p.moisture
  | .light p =>
      p.receiver_address < 4294967296 && p.sender_address < 4294967296 &&
      p.packet_number < 256 && p.timestamp < 4294967296 &&
      p.AS7263_610 < 4294967296 && p.AS7263_680 < 4294967296 &&
      p.AS7263_730 < 4294967296 && p.AS7263_760 < 4294967296 &&
      p.AS7263_810 < 4294967296 && p.AS7263_860 < 4294967296 &&
      p.AS7262_450 < 4294967296 && p.AS7262_500 < 4294967296 &&
      p.AS7262_550 < 4294967296 && p.AS7262_570 < 4294967296 &&
      p.AS7262_600 < 4294967296 && p.AS7262_650 < 4294967296 &&
      p.integration_time < 256 && p.gain < 256
  | .command2 p =>
      p.receiver_address < 4294967296 && p.sender_address < 4294967296 &&
      p.command < 256 && p.time < 4294967296 &&
      p.integration_time < 256 && p.gain < 256
  | .dataRev32 p =>
      p.receiver_address < 4294967296 && p.sender_address < 4294967296 &&
      p.packet_number < 256 && p.timestamp < 4294967296 &&
      p.temperature_reference.1 < 4294967296 && p.temperature_reference.2 < 4294967296 &&
      p.temperature_heat.1 < 4294967296 && p.temperature_heat.2 < 4294967296 &&
      p.growth_sensor < 4294967296 && p.adc_bandgap < 4294967296 &&
      p.number_of_bits < 256 && p.air_relative_humidity < 256 &&
      i16ok p.air_temperature &&
      i16ok p.gravity_z_mean && i16ok p.gravity_z_derivation &&
      i16ok p.gravity_y_mean && i16ok p.gravity_y_derivation &&
      i16ok p.gravity_x_mean && i16ok p.gravity_x_derivation &&
      p.StWC < 65536 && p.adc_volt_bat < 4294967296

/-! ### Sample buffers and packets (`SAMPLE_RAW` / `SAMPLE_PACKETS`) -/

/-- `SAMPLE_RAW["TTHeloPacket"]` (hex `4a4a4a4a520103520502`). -/
def SAMPLE_RAW_TTHeloPacket : List ℕ := [74, 74, 74, 74, 82, 1, 3, 82, 5, 2]

/-- `SAMPLE_RAW["TTCloudHeloPacket"]` (hex `52010352180103c241be52d84860`). -/
def SAMPLE_RAW_TTCloudHeloPacket : List ℕ :=
  [82, 1, 3, 82, 24, 1, 3, 194, 65, 190, 82, 216, 72, 96]

/-- `SAMPLE_RAW["DataPacket"]` (60 bytes). -/
def SAMPLE_RAW_DataPacket : List ℕ :=
  [24, 1, 3, 194, 82, 1, 3, 82, 77, 1, 64, 56, 0, 0, 119, 133, 0, 0, 250, 133, 0, 0,
   108, 184, 0, 0, 65, 170, 0, 0, 17, 30, 226, 0, 57, 0, 221, 252, 146, 15, 0, 0,
   0, 0, 0, 0, 120, 133, 0, 0, 2, 86, 0, 0, 134, 197, 69, 67, 1, 0]

/-- `SAMPLE_RAW["LightSensorPacket"]` (64 bytes). -/
def SAMPLE_RAW_LightSensorPacket : List ℕ :=
  [24, 1, 3, 194, 82, 1, 3, 82, 73, 2, 64, 56, 0, 0, 209, 7, 147, 65, 72, 86, 218, 65,
   20, 72, 117, 66, 86, 21, 143, 66, 129, 81, 179, 66, 48, 212, 179, 66, 69, 33, 103, 66,
   229, 21, 104, 66, 36, 126, 48, 66, 68, 196, 45, 66, 234, 118, 15, 66, 217, 225, 11, 66,
   50, 3]

/-- `SAMPLE_RAW["TTCommand1"]` (hex `52010352180103c242188cd84860100e000058022d02`). -/
def SAMPLE_RAW_TTCommand1 : List ℕ :=
  [82, 1, 3, 82, 24, 1, 3, 194, 66, 24, 140, 216, 72, 96, 16, 14, 0, 0, 88, 2, 45, 2]

/-- `SAMPLE_RAW["TTCommand2"]` (hex `52010352180103c24a5289e148603203`). -/
def SAMPLE_RAW_TTCommand2 : List ℕ :=
  [82, 1, 3, 82, 24, 1, 3, 194, 74, 82, 137, 225, 72, 96, 50, 3]

/-- `SAMPLE_PACKETS["TTHeloPacket"]`. -/
def SAMPLE_TTHeloPacket : TTHeloPacket :=
  { receiver_address := 1246382666, sender_address := 1375928658, packet_number := 2 }

/-- `SAMPLE_PACKETS["TTCloudHeloPacket"]`. -/
def SAMPLE_TTCloudHeloPacket : TTCloudHeloPacket :=
  { receiver_address := 1375928658, sender_address := 3254976792,
    command := 190, time := 1615386706 }

/-- `SAMPLE_PACKETS["DataPacket"]`. -/
def SAMPLE_DataPacket : DataPacketRev32 :=
  { receiver_address := 3254976792, sender_address := 1375928658,
    packet_number := 1, timestamp := 14400,
    temperature_reference := (34167, 34168), temperature_heat := (34298, 22018),
    growth_sensor := 47212, adc_bandgap := 43585, number_of_bits := 17,
    air_relative_humidity := 30, air_temperature := 226,
    gravity_z_mean := 57, gravity_z_derivation := -803,
    gravity_y_mean := 3986, gravity_y_derivation := 0,
    gravity_x_mean := 0, gravity_x_derivation := 0,
    StWC := 50566, adc_volt_bat := 82757 }

/-- `SAMPLE_PACKETS["LightSensorPacket"]`; the twelve spectrometer floats are
given by their 32-bit wire words (e.g. `AS7263[610] = 18.378816…` is word
`1100154833 = 0x419307d1`). -/
def SAMPLE_LightSensorPacket : LightSensorPacket :=
  { receiver_address := 3254976792, sender_address := 1375928658,
    packet_number := 2, timestamp := 14400,
    AS7263_610 := 1100154833, AS7263_680 := 1104827976, AS7263_730 := 1114982420,
    AS7263_760 := 1116673366, AS7263_810 := 1119048065, AS7263_860 := 1119081520,
    AS7262_450 := 1114054981, AS7262_500 := 1114117605, AS7262_550 := 1110474276,
    AS7262_570 := 1110295620, AS7262_600 := 1108309738, AS7262_650 := 1108074969,
    integration_time := 50, gain := 3 }

/-- `SAMPLE_PACKETS["TTCommand1"]`. -/
def SAMPLE_TTCommand1 : TTCommand1 :=
  { receiver_address := 1375928658, sender_address := 3254976792,
    command := 24, time := 1615386764, sleep_interval := 3600, unknown := 0,
    heating := 600, time_slot_length := 45, time_slot := 2 }

/-- `SAMPLE_PACKETS["TTCommand2"]`. -/
def SAMPLE_TTCommand2 : TTCommand2 :=
  { receiver_address := 1375928658, sender_address := 3254976792,
    command := 82, time := 1615389065, integration_time := 50, gain := 3 }

/-! ### util.py -/

/-- `mV_BANDGAP = 1100`. -/
def mV_BANDGAP : ℚ := 1100

/-- Python `round(x, 2)`.  CPython rounds the binary float to the nearest
hundredth (ties resolved by the float representation); modelled as exact
nearest-hundredth rounding over `ℚ`.  No claim depends on tie-breaking. -/
def pyRound2 (q : ℚ) : ℚ := (round (q * 100) : ℤ) / 100

/-- Python `int(x)` on a float: truncation toward zero. -/
def pyTrunc (q : ℚ) : ℤ := if 0 ≤ q then ⌊q⌋ else ⌈q⌉

/-- `util.compute_temperature`: the cubic probe-conversion polynomial,
rounded to two decimals. -/
def compute_temperature (measurement : ℤ) : ℚ :=
  pyRound2 (1276 / 10 - (6045 / 1000000) * (measurement : ℚ)
    + (126 / 1000000000) * (measurement : ℚ) ^ 2
    - (115 / 100000000000000) * (measurement : ℚ) ^ 3)

/-- `util.compute_battery_voltage_rev_3_2`:
`2 * mV_BANDGAP * (adc_volt_bat / adc_bandgap)`; Python raises
`ZeroDivisionError` when `adc_bandgap` is 0. -/
def compute_battery_voltage_rev_3_2 (adc_volt_bat adc_bandgap : ℕ) : Except PyError ℚ :=
  if adc_bandgap = 0 then .error .zeroDivisionError
  else .ok (2 * mV_BANDGAP * ((adc_volt_bat : ℚ) / (adc_bandgap : ℚ)))

/-- `util.compute_battery_voltage_rev_3_1`: `650 + 131072 * (1100 / voltage)`;
Python raises `ZeroDivisionError` when `voltage` is 0. -/
def compute_battery_voltage_rev_3_1 (voltage : ℕ) : Except PyError ℚ :=
  if voltage = 0 then .error .zeroDivisionError
  else .ok (650 + 131072 * (1100 / (voltage : ℚ)))

/-! ### Python statistics helpers

`statistics.mean` raises `StatisticsError` on an empty list;
`statistics.stdev` raises `StatisticsError` on fewer than two points.
`stdev` returns `√(sample variance)`, which is irrational in general; it is
modelled by the sample variance (its square).  Every use in the modelled
code either only tests definedness or compares `|d| > CONFIDENCE * stdev`,
which is stated equivalently on squares via `sigmaExceeds`. -/

/-- `statistics.mean`. -/
def pyMean (l : List ℚ) : Except PyError ℚ :=
  if l.length = 0 then .error .statisticsError else .ok (l.sum / l.length)

/-- `statistics.stdev`, represented by its square (the sample variance,
denominator `n - 1`). -/
def pyStdevSq (l : List ℚ) : Except PyError ℚ :=
  if l.length < 2 then .error .statisticsError
  else .ok ((l.map (fun x => (x - l.sum / l.length) ^ 2)).sum / ((l.length : ℚ) - 1))

/-- `|d| > c * stdev` for `c ≥ 0` and a stdev whose square is `var`:
equivalent to `d² > c² * var`. -/
def sigmaExceeds (d c var : ℚ) : Bool := decide (d ^ 2 > c ^ 2 * var)

/-! ### policy.py constants -/

/-- `RDE = 1`. -/
def RDE : ℚ := 1

/-- `CONFIDENCE = 3`. -/
def CONFIDENCE : ℚ := 3

/-- `SLEEP_TIME_MIN = 300`. -/
def SLEEP_TIME_MIN : ℤ := 300

/-- `SLEEP_TIME_DEFAULT = 600`. -/
def SLEEP_TIME_DEFAULT : ℤ := 600

/-- `TIME_SLOT_LENGTH = 60`. -/
def TIME_SLOT_LENGTH : ℤ := 60

/-- `CRITICAL_TEMPERATURE = 50`. -/
def CRITICAL_TEMPERATURE : ℤ := 50

/-! ### Influx query results (the policy's environment)

The time-series store and the wall clock are external collaborators; an
`InfluxEnv` fixes what the queries issued by one `evaluate` call return.
`.error ()` models a raised `InfluxDBServerError`. -/

/-- One row of the `power` query (`ttt_voltage` with its parsed timestamp). -/
structure PowerRow where
  time : ℤ
  ttt_voltage : ℚ
deriving DecidableEq, Repr

/-- One row of the `gravity` query (`x_mean`, `y_mean`, `z_mean`). -/
structure GravityRow where
  x_mean : ℚ
  y_mean : ℚ
  z_mean : ℚ
deriving DecidableEq, Repr

/-- One row of the `stem_temperature` query. -/
structure StemRow where
  ttt_reference_probe_cold : ℚ
  ttt_reference_probe_hot : ℚ
  ttt_heat_probe_cold : ℚ
  ttt_heat_probe_hot : ℚ
deriving DecidableEq, Repr

/-- The query results and wall-clock time seen by one `evaluate` call. -/
structure InfluxEnv where
  powerQuery : Except Unit (List PowerRow)
  gravityQuery : Except Unit (List GravityRow)
  stemQuery : Except Unit (List StemRow)
  now : ℤ
deriving Repr

/-- The `global/movement` JSON baseline (six keys, as published). -/
structure MovementAgg where
  mean_x : ℚ
  stdev_x : ℚ
  mean_y : ℚ
  stdev_y : ℚ
  mean_z : ℚ
  stdev_z : ℚ
deriving DecidableEq, Repr

/-- The `global/temperature` JSON baseline. -/
structure TemperatureAgg where
  stdev_delta_cold : ℚ
  stdev_delta_hot : ℚ
deriving DecidableEq, Repr

/-- The mutable state of a `DataPolicy` object: its address, the
`sleep_times` dict and the last-seen fleet baselines (`{}` = `none`). -/
structure DataPolicy where
  local_address : ℕ
  sleep_times : List (ℕ × ℤ)
  aggregated_movement : Option MovementAgg
  aggregated_temperature : Option TemperatureAgg
deriving DecidableEq, Repr

/-- The `Union[DataPacketRev31, DataPacketRev32]` parameter of the data
policy. -/
inductive DataPacket
  | rev31 (p : DataPacketRev31)
  | rev32 (p : DataPacketRev32)
deriving DecidableEq, Repr

/-- Attribute `sender_address` (present on both revisions). -/
def DataPacket.sender_address : DataPacket → ℕ
  | .rev31 p => p.sender_address
  | .rev32 p => p.sender_address

/-- Attribute `air_temperature` (present on both revisions). -/
def DataPacket.air_temperature : DataPacket → ℤ
  | .rev31 p => p.air_temperature
  | .rev32 p => p.air_temperature

/-- Attribute `gravity_x_mean` (present on both revisions). -/
def DataPacket.gravity_x_mean : DataPacket → ℤ
  | .rev31 p => p.gravity_x_mean
  | .rev32 p => p.gravity_x_mean

/-- Attribute `gravity_y_mean`. -/
def DataPacket.gravity_y_mean : DataPacket → ℤ
  | .rev31 p => p.gravity_y_mean
  | .rev32 p => p.gravity_y_mean

/-- Attribute `gravity_z_mean`. -/
def DataPacket.gravity_z_mean : DataPacket → ℤ
  | .rev31 p => p.gravity_z_mean
  | .rev32 p => p.gravity_z_mean

/-- Attribute `gravity_x_derivation`. -/
def DataPacket.gravity_x_derivation : DataPacket → ℤ
  | .rev31 p => p.gravity_x_derivation
  | .rev32 p => p.gravity_x_derivation

/-- Attribute `gravity_y_derivation`. -/
def DataPacket.gravity_y_derivation : DataPacket → ℤ
  | .rev31 p => p.gravity_y_derivation
  | .rev32 p => p.gravity_y_derivation

/-- Attribute `gravity_z_derivation`. -/
def DataPacket.gravity_z_derivation : DataPacket → ℤ
  | .rev31 p => p.gravity_z_derivation
  | .rev32 p => p.gravity_z_derivation

/-- Attribute `temperature_reference_cold`: a `DataPacketRev31` field.
`DataPacketRev32` has no such attribute (its temperatures live in the
tuples `temperature_reference` / `temperature_heat`), so the access raises
`AttributeError`. -/
def DataPacket.temperature_reference_cold : DataPacket → Except PyError ℤ
  | .rev31 p => .ok p.temperature_reference_cold
  | .rev32 _ => .error .attributeError

/-- Attribute `temperature_reference_hot` (Rev31 only, as above). -/
def DataPacket.temperature_reference_hot : DataPacket → Except PyError ℤ
  | .rev31 p => .ok p.temperature_reference_hot
  | .rev32 _ => .error .attributeError

/-- Attribute `temperature_heat_cold` (Rev31 only, as above). -/
def DataPacket.temperature_heat_cold : DataPacket → Except PyError ℤ
  | .rev31 p => .ok p.temperature_heat_cold
  | .rev32 _ => .error .attributeError

/-- Attribute `temperature_heat_hot` (Rev31 only, as above). -/
def DataPacket.temperature_heat_hot : DataPacket → Except PyError ℤ
  | .rev31 p => .ok p.temperature_heat_hot
  | .rev32 _ => .error .attributeError

/-! ### DataPolicy evaluations -/

/-- Ordinary least squares over the given points (model of
`LinearRegression().fit`), returning `(slope, intercept)`.  For a
degenerate sample (all times equal) the `ℚ` convention `x / 0 = 0` gives
slope 0 and intercept `mean y`, matching the minimum-norm solution. -/
def lsfit (pts : List (ℤ × ℚ)) : ℚ × ℚ :=
  let n : ℚ := pts.length
  let sx : ℚ := (pts.map (fun p => (p.1 : ℚ))).sum
  let sy : ℚ := (pts.map (fun p => p.2)).sum
  let sxx : ℚ := (pts.map (fun p => (p.1 : ℚ) ^ 2)).sum
  let sxy : ℚ := (pts.map (fun p => (p.1 : ℚ) * p.2)).sum
  let slope := (n * sxy - sx * sy) / (n * sxx - sx ^ 2)
  (slope, (sy - slope * sx) / n)

/-- `reg.predict([[t]])[0]`. -/
def predict (reg : ℚ × ℚ) (t : ℤ) : ℚ := reg.2 + reg.1 * (t : ℚ)

/-- `DataPolicy._evaluate_battery`: on a failed or empty `power` query
return `SLEEP_TIME_DEFAULT` without touching `sleep_times`; otherwise fit
the regression over the history plus the current point, update the
talker's sleep time by `RDE * (3700 - prediction 48h ahead)` and store it. -/
def DataPolicy.evaluate_battery (self : DataPolicy) (env : InfluxEnv)
    (sender_address : ℕ) (battery_voltage : ℚ) : ℤ × DataPolicy :=
  match env.powerQuery with
  | .error _ => (SLEEP_TIME_DEFAULT, self)
  | .ok rows =>
    if rows.isEmpty then (SLEEP_TIME_DEFAULT, self)
    else
      let pts := rows.map (fun r => (r.time, r.ttt_voltage)) ++ [(env.now, battery_voltage)]
      let reg := lsfit pts
      let sleep_time := (self.sleep_times.lookup sender_address).getD SLEEP_TIME_DEFAULT
      let sleep_time :=
        pyTrunc ((sleep_time : ℚ) + RDE * (3700 - predict reg (env.now + 3600 * 48)))
      (sleep_time, { self with sleep_times := (sender_address, sleep_time) :: self.sleep_times })

/-- `DataPolicy._evaluate_battery_3_2`. -/
def DataPolicy.evaluate_battery_3_2 (self : DataPolicy) (env : InfluxEnv)
    (packet : DataPacketRev32) : Except PyError (ℤ × DataPolicy) := do
  let battery_voltage ←
    compute_battery_voltage_rev_3_2 packet.adc_volt_bat packet.adc_bandgap
  .ok (self.evaluate_battery env packet.sender_address battery_voltage)

/-- `DataPolicy._evaluate_battery_3_1`. -/
def DataPolicy.evaluate_battery_3_1 (self : DataPolicy) (env : InfluxEnv)
    (packet : DataPacketRev31) : Except PyError (ℤ × DataPolicy) := do
  let battery_voltage ← compute_battery_voltage_rev_3_1 packet.voltage
  .ok (self.evaluate_battery env packet.sender_address battery_voltage)

/-- `DataPolicy._evaluate_position`: per-axis mean and stdev of the queried
gravity means; `statistics.stdev` raises on fewer than two rows. -/
def DataPolicy.evaluate_position (packet : DataPacket)
    (means_x means_y means_z : List ℚ) : Except PyError Bool := do
  let mean_x ← pyMean means_x
  let stdev_x ← pyStdevSq means_x
  let mean_y ← pyMean means_y
  let stdev_y ← pyStdevSq means_y
  let mean_z ← pyMean means_z
  let stdev_z ← pyStdevSq means_z
  .ok (sigmaExceeds ((packet.gravity_x_mean : ℚ) - mean_x) CONFIDENCE stdev_x ||
       sigmaExceeds ((packet.gravity_y_mean : ℚ) - mean_y) CONFIDENCE stdev_y ||
       sigmaExceeds ((packet.gravity_z_mean : ℚ) - mean_z) CONFIDENCE stdev_z)

/-- `DataPolicy._evaluate_movement`: compare the packet's derivative triple
against the last-seen fleet baseline; no baseline (`{}`) means no anomaly. -/
def DataPolicy.evaluate_movement (self : DataPolicy) (packet : DataPacket) : Bool :=
  match self.aggregated_movement with
  | none => false
  | some agg =>
    decide (|(packet.gravity_x_derivation : ℚ) - agg.mean_x| > agg.stdev_x * CONFIDENCE) ||
    decide (|(packet.gravity_y_derivation : ℚ) - agg.mean_y| > agg.stdev_y * CONFIDENCE) ||
    decide (|(packet.gravity_z_derivation : ℚ) - agg.mean_z| > agg.stdev_z * CONFIDENCE)

/-- `DataPolicy._evaluate_gravity`: a failed or empty `gravity` history
query returns `False` (skipping both the position and the movement check);
otherwise the result is `position or movement`. -/
def DataPolicy.evaluate_gravity (self : DataPolicy) (env : InfluxEnv)
    (packet : DataPacket) : Except PyError Bool :=
  match env.gravityQuery with
  | .error _ => .ok false
  | .ok rows =>
    if rows.isEmpty then .ok false
    else do
      let pos ← DataPolicy.evaluate_position packet (rows.map (fun r => r.x_mean))
        (rows.map (fun r => r.y_mean)) (rows.map (fun r => r.z_mean))
      .ok (pos || self.evaluate_movement packet)

/-- `DataPolicy._evaluate_air_temperature`. -/
def evaluate_air_temperature (packet : DataPacket) : Bool :=
  decide (packet.air_temperature ≥ CRITICAL_TEMPERATURE * 10)

/-- `DataPolicy._evaluate_stem_temperature`: needs a received temperature
baseline; reads the four Rev31-named temperature attributes off the packet
(an `AttributeError` for Rev32), converts them, and compares the current
deltas against the historical mean deltas scaled by the baseline stdevs. -/
def DataPolicy.evaluate_stem_temperature (self : DataPolicy) (env : InfluxEnv)
    (packet : DataPacket) : Except PyError Bool :=
  match self.aggregated_temperature with
  | none => .ok false
  | some agg => do
    let trc ← packet.temperature_reference_cold
    let trh ← packet.temperature_reference_hot
    let thc ← packet.temperature_heat_cold
    let thh ← packet.temperature_heat_hot
    let delta_cold := |compute_temperature thc - compute_temperature trc|
    let delta_hot := |compute_temperature thh - compute_temperature trh|
    match env.stemQuery with
    | .error _ => .ok false
    | .ok rows =>
      if rows.isEmpty then .ok false
      else do
        let mean_delta_cold ← pyMean (rows.map
          (fun r => |r.ttt_heat_probe_cold - r.ttt_reference_probe_cold|))
        let mean_delta_hot ← pyMean (rows.map
          (fun r => |r.ttt_heat_probe_hot - r.ttt_reference_probe_hot|))
        .ok (decide (|delta_cold - mean_delta_cold| > agg.stdev_delta_cold * CONFIDENCE) ||
             decide (|delta_hot - mean_delta_hot| > agg.stdev_delta_hot * CONFIDENCE))

/-- The `isinstance(packet, DataPacketRev31)` dispatch at the top of
`DataPolicy.evaluate`. -/
def DataPolicy.evaluate_battery_dispatch (self : DataPolicy) (env : InfluxEnv) :
    DataPacket → Except PyError (ℤ × DataPolicy)
  | .rev31 p => self.evaluate_battery_3_1 env p
  | .rev32 p => self.evaluate_battery_3_2 env p

/-- `DataPolicy.evaluate`: battery/sleep regression, the three anomaly
checks (any anomaly forces `SLEEP_TIME_MIN`), and the `TTCommand1` reply.
The `anomaly/<kind>` MQTT publishes are observability side effects and not
modelled. -/
def DataPolicy.evaluate (self : DataPolicy) (env : InfluxEnv) (packet : DataPacket) :
    Except PyError (TTCommand1 × DataPolicy) := do
  let bs ← self.evaluate_battery_dispatch env packet
  let sleep_interval : ℤ := max bs.1 SLEEP_TIME_MIN
  let self := bs.2
  let gravity_anomaly ← self.evaluate_gravity env packet
  let stem_temperature_anomaly ← self.evaluate_stem_temperature env packet
  let air_temperature_anomaly := evaluate_air_temperature packet
  let sleep_interval :=
    if gravity_anomaly || stem_temperature_anomaly || air_temperature_anomaly then
      SLEEP_TIME_MIN
    else sleep_interval
  let heating := pyTrunc ((sleep_interval : ℚ) / 6)
  .ok ({ receiver_address := packet.sender_address, sender_address := self.local_address,
         command := 32, time := env.now, sleep_interval := sleep_interval, unknown := 0,
         time_slot_length := TIME_SLOT_LENGTH, time_slot := 0, heating := heating }, self)

/-! ### to_influx_json (observation rows)

Rows are `(measurement, tags, fields)` with all numeric values in `ℚ`; the
boolean `heating` tag is modelled as 1/0. -/

/-- One time-series observation row. -/
structure InfluxPoint where
  measurement : String
  tags : List (String × ℚ)
  fields : List (String × ℚ)
deriving DecidableEq, Repr

/-- `DataPacketRev32.to_influx_json`: the `power` row computes `ttt_voltage`
via `compute_battery_voltage_rev_3_2`, which raises `ZeroDivisionError`
when `adc_bandgap = 0`. -/
def DataPacketRev32.to_influx_json (p : DataPacketRev32) :
    Except PyError (List InfluxPoint) := do
  let ttt_voltage ← compute_battery_voltage_rev_3_2 p.adc_volt_bat p.adc_bandgap
  .ok [
    { measurement := "stem_temperature",
      tags := [("treetalker", (p.sender_address : ℚ)), ("heating", 1)],
      fields := [("reference_probe_cold", (p.temperature_reference.1 : ℚ)),
                 ("reference_probe_hot", (p.temperature_reference.2 : ℚ)),
                 ("heat_probe_cold", (p.temperature_heat.1 : ℚ)),
                 ("heat_probe_hot", (p.temperature_heat.2 : ℚ)),
                 ("ttt_reference_probe_cold", compute_temperature (p.temperature_reference.1 : ℤ)),
                 ("ttt_reference_probe_hot", compute_temperature (p.temperature_reference.2 : ℤ)),
                 ("ttt_heat_probe_cold", compute_temperature (p.temperature_heat.1 : ℤ)),
                 ("ttt_heat_probe_hot", compute_temperature (p.temperature_heat.2 : ℤ))] },
    { measurement := "growth",
      tags := [("treetalker", (p.sender_address : ℚ))],
      fields := [("distance", (p.growth_sensor : ℚ))] },
    { measurement := "power",
      tags := [("treetalker", (p.sender_address : ℚ))],
      fields := [("bandgap", (p.adc_bandgap : ℚ)), ("voltage", (p.adc_volt_bat : ℚ)),
                 ("ttt_voltage", ttt_voltage)] },
    { measurement := "stem_water",
      tags := [("treetalker", (p.sender_address : ℚ))],
      fields := [("content", (p.StWC : ℚ))] },
    { measurement := "air",
      tags := [("treetalker", (p.sender_address : ℚ))],
      fields := [("temperature", (p.air_temperature : ℚ)),
                 ("humidity", (p.air_relative_humidity : ℚ))] },
    { measurement := "gravity",
      tags := [("treetalker", (p.sender_address : ℚ))],
      fields := [("x_mean", (p.gravity_x_mean : ℚ)), ("x_derivation", (p.gravity_x_derivation : ℚ)),
                 ("y_mean", (p.gravity_y_mean : ℚ)), ("y_derivation", (p.gravity_y_derivation : ℚ)),
                 ("z_mean", (p.gravity_z_mean : ℚ)), ("z_derivation", (p.gravity_z_derivation : ℚ))] }]

/-- `DataPacketRev31.to_influx_json`: the `power` row computes `ttt_voltage`
via `compute_battery_voltage_rev_3_1`, which raises `ZeroDivisionError`
when `voltage = 0`. -/
def DataPacketRev31.to_influx_json (p : DataPacketRev31) :
    Except PyError (List InfluxPoint) := do
  let ttt_voltage ← compute_battery_voltage_rev_3_1 p.voltage
  .ok [
    { measurement := "stem_temperature",
      tags := [("treetalker", (p.sender_address : ℚ)), ("heating", 0)],
      fields := [("reference_probe_cold", (p.temperature_reference_cold : ℚ)),
                 ("reference_probe_hot", (p.temperature_reference_hot : ℚ)),
                 ("heat_probe_cold", (p.temperature_heat_cold : ℚ)),
                 ("heat_probe_hot", (p.temperature_heat_hot : ℚ)),
                 ("ttt_reference_probe_cold", compute_temperature p.temperature_reference_cold),
                 ("ttt_reference_probe_hot", compute_temperature p.temperature_reference_hot),
                 ("ttt_heat_probe_cold", compute_temperature p.temperature_heat_cold),
                 ("ttt_heat_probe_hot", compute_temperature p.temperature_heat_hot)] },
    { measurement := "growth",
      tags := [("treetalker", (p.sender_address : ℚ))],
      fields := [("distance", (p.growth_sensor : ℚ))] },
    { measurement := "power",
      tags := [("treetalker", (p.sender_address : ℚ))],
      fields := [("voltage", (p.voltage : ℚ)), ("ttt_voltage", ttt_voltage)] },
    { measurement := "stem_water",
      tags := [("treetalker", (p.sender_address : ℚ))],
      fields := [("xmc", (p.moisture : ℚ))] },
    { measurement := "air",
      tags := [("treetalker", (p.sender_address : ℚ))],
      fields := [("temperature", (p.air_temperature : ℚ)),
                 ("humidity", (p.air_relative_humidity : ℚ))] },
    { measurement := "gravity",
      tags := [("treetalker", (p.sender_address : ℚ))],
      fields := [("x_mean", (p.gravity_x_mean : ℚ)), ("x_derivation", (p.gravity_x_derivation : ℚ)),
                 ("y_mean", (p.gravity_y_mean : ℚ)), ("y_derivation", (p.gravity_y_derivation : ℚ)),
                 ("z_mean", (p.gravity_z_mean : ℚ)), ("z_derivation", (p.gravity_z_derivation : ℚ))] }]

/-! ### network_coordinator.py -/

/-- A `helo/request` message `{cloud_address, tt_address}`. -/
structure HeloRequest where
  cloud_address : ℕ
  tt_address : ℕ
deriving DecidableEq, Repr

/-- The `{tt_address, connect}` response, together with the gateway named in
the `helo/response/<cloud_address>` topic it is published on. -/
structure HeloResponse where
  topic_gateway : ℕ
  tt_address : ℕ
  connect : Bool
deriving DecidableEq, Repr

/-- `Coordinator.assignments`: tt_address → cloud_address.  The Python dict
is an assoc list; insertion prepends and `List.lookup` finds the newest
binding. -/
abbrev Assignments := List (ℕ × ℕ)

/-- `Coordinator.on_message`: if the talker is unassigned, record the
claiming gateway and answer `connect=true`; otherwise answer
`connect = (assignment == cloud_address)` and leave the table unchanged. -/
def Coordinator.on_message (assignments : Assignments) (request : HeloRequest) :
    Assignments × HeloResponse :=
  match assignments.lookup request.tt_address with
  | none =>
    ((request.tt_address, request.cloud_address) :: assignments,
     { topic_gateway := request.cloud_address, tt_address := request.tt_address,
       connect := true })
  | some assignment =>
    (assignments,
     { topic_gateway := request.cloud_address, tt_address := request.tt_address,
       connect := assignment == request.cloud_address })

/-- The assignments table after a stream of requests. -/
def Coordinator.run (assignments : Assignments) : List HeloRequest → Assignments
  | [] => assignments
  | r :: rs => Coordinator.run (Coordinator.on_message assignments r).1 rs

/-! ### local_decision_engine.py (time-slot allocation) -/

/-- The slot-allocation state of an `LDE` instance. -/
structure LDEState where
  connected_clients : List (ℕ × ℕ)
  time_slot : ℕ
deriving DecidableEq, Repr

/-- The `LDE.__init__` state: no connected clients, `time_slot = 1`. -/
def LDE.init : LDEState := { connected_clients := [], time_slot := 1 }

/-- `LDE._add_tt_to_connected`: an already-tracked talker keeps its slot;
a new talker gets the current `time_slot`, which is then incremented. -/
def LDE.add_tt_to_connected (s : LDEState) (address : ℕ) : LDEState :=
  match s.connected_clients.lookup address with
  | some _ => s
  | none =>
    { connected_clients := (address, s.time_slot) :: s.connected_clients,
      time_slot := s.time_slot + 1 }

/-- The `reply.time_slot = self.connected_clients.get(reply.receiver_address, 0)`
line of `LDE._on_data`. -/
def LDE.on_data_time_slot (s : LDEState) (receiver_address : ℕ) : ℕ :=
  (s.connected_clients.lookup receiver_address).getD 0

/-- A sequence of registrations (first unicast contacts in `_handle_packet`
and coordinator confirmations in `_handle_helo_response` both call
`_add_tt_to_connected`). -/
def LDE.register_all (s : LDEState) : List ℕ → LDEState
  | [] => s
  | a :: rest => LDE.register_all (LDE.add_tt_to_connected s a) rest

/-! ### aggregator.py -/

/-- One row of the aggregator's fleet-wide gravity query. -/
structure GravityDerivRow where
  x_derivation : ℚ
  y_derivation : ℚ
  z_derivation : ℚ
deriving DecidableEq, Repr

/-- `Aggregator._aggregate_movement` over the result of the gravity query:
`{}` (here `[]`) on a failed query or on empty per-axis lists, otherwise
the six-key dict in construction order.  `statistics.stdev` — modelled by
`pyStdevSq`, so the value paired with a `stdev_*` key is the square of the
published float — raises `StatisticsError` on a single row, which
propagates out of the aggregation cycle. -/
def Aggregator.aggregate_movement (query : Except Unit (List GravityDerivRow)) :
    Except PyError (List (String × ℚ)) :=
  match query with
  | .error _ => .ok []
  | .ok rows =>
    let x_derivs := rows.map (fun r => r.x_derivation)
    let y_derivs := rows.map (fun r => r.y_derivation)
    let z_derivs := rows.map (fun r => r.z_derivation)
    if x_derivs.isEmpty || y_derivs.isEmpty || z_derivs.isEmpty then .ok []
    else do
      let mean_x ← pyMean x_derivs
      let stdev_x ← pyStdevSq x_derivs
      let mean_y ← pyMean y_derivs
      let stdev_y ← pyStdevSq y_derivs
      let mean_z ← pyMean z_derivs
      let stdev_z ← pyStdevSq z_derivs
      .ok [("mean_x", mean_x), ("stdev_x", stdev_x), ("mean_y", mean_y),
           ("stdev_y", stdev_y), ("mean_z", mean_z), ("stdev_z", stdev_z)]

/-- The `start` loop publishes `global/movement` iff the aggregate dict is
truthy, i.e. non-empty. -/
def Aggregator.publishes_movement (result : List (String × ℚ)) : Bool :=
  !result.isEmpty

/-! ### Concrete policy fixtures (used by witnesses and counterexamples) -/

/-- An all-zero fleet movement baseline. -/
def baselineZero : MovementAgg :=
  { mean_x := 0, stdev_x := 0, mean_y := 0, stdev_y := 0, mean_z := 0, stdev_z := 0 }

/-- A policy state that has received the all-zero movement baseline. -/
def policyWithMovementBaseline : DataPolicy :=
  { local_address := 1, sleep_times := [],
    aggregated_movement := some baselineZero, aggregated_temperature := none }

/-- A fresh policy state (no baselines, no sleep times). -/
def policyNoBaseline : DataPolicy :=
  { local_address := 1, sleep_times := [],
    aggregated_movement := none, aggregated_temperature := none }

/-- A policy state that has received a temperature baseline. -/
def policyWithTemperatureBaseline : DataPolicy :=
  { local_address := 1, sleep_times := [],
    aggregated_movement := none,
    aggregated_temperature := some { stdev_delta_cold := 0, stdev_delta_hot := 0 } }

/-- An environment whose history queries all succeed with empty results. -/
def envEmptyHistory : InfluxEnv :=
  { powerQuery := .ok [], gravityQuery := .ok [], stemQuery := .ok [], now := 1000 }

/-- An environment with two (identical, all-zero) gravity history rows. -/
def envTwoGravityRows : InfluxEnv :=
  { powerQuery := .ok [],
    gravityQuery := .ok [{ x_mean := 0, y_mean := 0, z_mean := 0 },
                         { x_mean := 0, y_mean := 0, z_mean := 0 }],
    stemQuery := .ok [], now := 1000 }

/-- A Rev31 data packet with innocuous values and a nonzero `voltage`. -/
def rev31Sample : DataPacketRev31 :=
  { receiver_address := 3254976792, sender_address := 1375928658,
    packet_number := 1, timestamp := 14400,
    temperature_reference_cold := 100, temperature_heat_cold := 120,
    growth_sensor := 47212, voltage := 1100, number_of_bits := 17,
    air_relative_humidity := 30, air_temperature := 226,
    gravity_z_mean := 57, gravity_z_derivation := -803,
    gravity_y_mean := 3986, gravity_y_derivation := 0,
    gravity_x_mean := 0, gravity_x_derivation := 0,
    temperature_reference_hot := 130, temperature_heat_hot := 140, moisture := 5 }

/-- `rev31Sample` with a zero `voltage` field. -/
def rev31ZeroVoltage : DataPacketRev31 :=
  { rev31Sample with voltage := 0 }

/-- The sample Rev32 packet with a zero `adc_bandgap` field. -/
def rev32ZeroBandgap : DataPacketRev32 :=
  { SAMPLE_DataPacket with adc_bandgap := 0 }

/-- The `TTCommand1` produced for `rev31Sample` under empty histories. -/
def cmdW : TTCommand1 :=
  { receiver_address := 1375928658, sender_address := 1, command := 32, time := 1000,
    sleep_interval := 600, unknown := 0, heating := 100, time_slot := 0,
    time_slot_length := 60 }

/-! ### Codec theorems -/

/-- Helper: `List.getD` on a cons cell, in a numeral-friendly form. -/
theorem getD_cons {α : Type} (a : α) (l : List α) (n : ℕ) (d : α) :
    (a :: l).getD n d = if n = 0 then a else l.getD (n - 1) d := by
  cases n with
  | zero => simp
  | succ m => simp [List.getD_cons_succ]

set_option maxHeartbeats 2000000 in
/-- C1: for every packet of the seven variants whose fields fit their wire
widths, decoding the encoding returns the packet itself. -/
theorem unmarshall_marshall (p : TTPacket) (h : p.wellFormed = true) :
    unmarshall p.marshall = .ok p := by
  cases p with
  | helo q =>
    obtain ⟨ra, sa, pn⟩ := q
    simp only [TTPacket.wellFormed, Bool.and_eq_true, decide_eq_true_eq] at h
    simp only [TTPacket.marshall, TTHeloPacket.marshall, le32, List.cons_append,
      List.nil_append, unmarshall, TTHeloPacket.unmarshall, List.length_cons,
      List.length_nil, getD_cons, u32v, u16v, i16v]
    norm_num
    omega
  | cloudHelo q =>
    obtain ⟨ra, sa, c, t⟩ := q
    simp only [TTPacket.wellFormed, Bool.and_eq_true, decide_eq_true_eq] at h
    simp only [TTPacket.marshall, TTCloudHeloPacket.marshall, le32, List.cons_append,
      List.nil_append, unmarshall, TTCloudHeloPacket.unmarshall, List.length_cons,
      List.length_nil, getD_cons, u32v, u16v, i16v]
    norm_num
    omega
  | command1 q =>
    obtain ⟨ra, sa, c, t, si, u, he, ts, tsl⟩ := q
    simp only [TTPacket.wellFormed, Bool.and_eq_true, decide_eq_true_eq, uzok] at h
    simp only [TTPacket.marshall, TTCommand1.marshall, le32, le16, le32z, le16z, u8z,
      List.cons_append, List.nil_append, unmarshall, TTCommand1.unmarshall,
      List.length_cons, List.length_nil, getD_cons, u32v, u16v, i16v]
    norm_num
    omega
  | dataRev31 q =>
    obtain ⟨ra, sa, pn, ts, trc, thc, gs, v, nb, hu, at_, gzm, gzd, gym, gyd, gxm, gxd,
      trh, thh, mo⟩ := q
    simp only [TTPacket.wellFormed, Bool.and_eq_true, decide_eq_true_eq, i16ok] at h
    simp only [TTPacket.marshall, DataPacketRev31.marshall, le32, le16, le16i,
      List.cons_append, List.nil_append, unmarshall, DataPacketRev31.unmarshall,
      List.length_cons, List.length_nil, getD_cons, u32v, u16v, i16v]
    norm_num
    omega
  | light q =>
    obtain ⟨ra, sa, pn, ts, a1, a2, a3, a4, a5, a6, b1, b2, b3, b4, b5, b6, it, g⟩ := q
    simp only [TTPacket.wellFormed, Bool.and_eq_true, decide_eq_true_eq] at h
    simp only [TTPacket.marshall, LightSensorPacket.marshall, le32, List.cons_append,
      List.nil_append, unmarshall, LightSensorPacket.unmarshall, List.length_cons,
      List.length_nil, getD_cons, u32v, u16v, i16v]
    norm_num
    omega
  | command2 q =>
    obtain ⟨ra, sa, c, t, it, g⟩ := q
    simp only [TTPacket.wellFormed, Bool.and_eq_true, decide_eq_true_eq] at h
    simp only [TTPacket.marshall, TTCommand2.marshall, le32, List.cons_append,
      List.nil_append, unmarshall, TTCommand2.unmarshall, List.length_cons,
      List.length_nil, getD_cons, u32v, u16v, i16v]
    norm_num
    omega
  | dataRev32 q =>
    obtain ⟨ra, sa, pn, ts, gs, bg, nb, hu, at_, gzm, gzd, gym, gyd, gxm, gxd, sw, vb,
      tr, th⟩ := q
    obtain ⟨tr0, tr1⟩ := tr
    obtain ⟨th0, th1⟩ := th
    simp only [TTPacket.wellFormed, Bool.and_eq_true, decide_eq_true_eq, i16ok] at h
    simp only [TTPacket.marshall, DataPacketRev32.marshall, le32, le16, le16i,
      List.cons_append, List.nil_append, unmarshall, DataPacketRev32.unmarshall,
      List.length_cons, List.length_nil, getD_cons, u32v, u16v, i16v]
    norm_num
    omega

/-- C1 witness: the round-trip theorem applied to the sample HELO packet. -/
theorem unmarshall_marshall_witness :
    (TTPacket.helo SAMPLE_TTHeloPacket).wellFormed = true ∧
      unmarshall (TTPacket.helo SAMPLE_TTHeloPacket).marshall =
        .ok (.helo SAMPLE_TTHeloPacket) :=
  ⟨by decide, unmarshall_marshall (.helo SAMPLE_TTHeloPacket) (by decide)⟩

/-- C2: each of the six fixture buffers decodes to exactly the documented
sample packet, and re-encoding reproduces the byte string. -/
theorem marshall_unmarshall_samples :
    (unmarshall SAMPLE_RAW_TTHeloPacket = .ok (.helo SAMPLE_TTHeloPacket) ∧
      (TTPacket.helo SAMPLE_TTHeloPacket).marshall = SAMPLE_RAW_TTHeloPacket) ∧
    (unmarshall SAMPLE_RAW_TTCloudHeloPacket = .ok (.cloudHelo SAMPLE_TTCloudHeloPacket) ∧
      (TTPacket.cloudHelo SAMPLE_TTCloudHeloPacket).marshall = SAMPLE_RAW_TTCloudHeloPacket) ∧
    (unmarshall SAMPLE_RAW_DataPacket = .ok (.dataRev32 SAMPLE_DataPacket) ∧
      (TTPacket.dataRev32 SAMPLE_DataPacket).marshall = SAMPLE_RAW_DataPacket) ∧
    (unmarshall SAMPLE_RAW_LightSensorPacket = .ok (.light SAMPLE_LightSensorPacket) ∧
      (TTPacket.light SAMPLE_LightSensorPacket).marshall = SAMPLE_RAW_LightSensorPacket) ∧
    (unmarshall SAMPLE_RAW_TTCommand1 = .ok (.command1 SAMPLE_TTCommand1) ∧
      (TTPacket.command1 SAMPLE_TTCommand1).marshall = SAMPLE_RAW_TTCommand1) ∧
    (unmarshall SAMPLE_RAW_TTCommand2 = .ok (.command2 SAMPLE_TTCommand2) ∧
      (TTPacket.command2 SAMPLE_TTCommand2).marshall = SAMPLE_RAW_TTCommand2) := by
  exact ⟨⟨rfl, rfl⟩, ⟨rfl, rfl⟩, ⟨rfl, rfl⟩, ⟨rfl, rfl⟩, ⟨rfl, rfl⟩, ⟨rfl, rfl⟩⟩

/-- C3: an input with a known header whose type tag is not one of the seven
known tags decodes to the unknown-tag error (`KeyError` in the source); a
known tag whose payload size is not exactly the variant's expected size
decodes to the truncated error (`struct.error`). -/
theorem unmarshall_error_classification (raw : List ℕ) (h9 : 9 ≤ raw.length) :
    (raw.getD 8 0 ∉ KNOWN_TAGS → unmarshall raw = .error .unknownTag) ∧
    (raw.getD 8 0 ∈ KNOWN_TAGS → raw.length ≠ 9 + PAYLOAD_SIZES (raw.getD 8 0) →
      unmarshall raw = .error .truncated) := by
  match raw, h9 with
  | r0 :: r1 :: r2 :: r3 :: s0 :: s1 :: s2 :: s3 :: tag :: rest, _ =>
    constructor
    · intro hmem
      simp only [KNOWN_TAGS, List.mem_cons, List.not_mem_nil, or_false, not_or,
        getD_cons] at hmem
      norm_num at hmem
      obtain ⟨n5, n65, n66, n69, n73, n74, n77⟩ := hmem
      simp [unmarshall, n5, n65, n66, n69, n73, n74, n77]
    · intro hmem hlen
      simp only [KNOWN_TAGS, List.mem_cons, List.not_mem_nil, or_false,
        getD_cons] at hmem hlen
      norm_num at hmem hlen
      rcases hmem with rfl | rfl | rfl | rfl | rfl | rfl | rfl <;>
        norm_num [PAYLOAD_SIZES] at hlen <;>
        simp only [unmarshall, TTHeloPacket.unmarshall, TTCloudHeloPacket.unmarshall,
          TTCommand1.unmarshall, DataPacketRev31.unmarshall, LightSensorPacket.unmarshall,
          TTCommand2.unmarshall, DataPacketRev32.unmarshall] <;>
        norm_num <;>
        exact fun h => absurd h (by omega)

/-- C3 witness: an unknown tag (6) buffer and a truncated Helo buffer. -/
theorem unmarshall_error_classification_witness :
    unmarshall [0, 0, 0, 0, 0, 0, 0, 0, 6] = .error .unknownTag ∧
      unmarshall [0, 0, 0, 0, 0, 0, 0, 0, 5, 1, 2] = .error .truncated :=
  ⟨(unmarshall_error_classification [0, 0, 0, 0, 0, 0, 0, 0, 6] (by decide)).1 (by decide),
   (unmarshall_error_classification [0, 0, 0, 0, 0, 0, 0, 0, 5, 1, 2] (by decide)).2
     (by decide) (by decide)⟩

/-! ### Policy theorems -/

/-- `Except.bind` on a success. -/
theorem bind_ok_eq {e a b : Type} (x : a) (f : a → Except e b) :
    (Except.ok x >>= f) = f x := rfl

/-- `Except.bind` on a failure. -/
theorem bind_error_eq {e a b : Type} (err : e) (f : a → Except e b) :
    ((Except.error err : Except e a) >>= f) = Except.error err := rfl

/-- `pyTrunc` coincides with the floor on nonnegative arguments. -/
theorem pyTrunc_eq_floor (q : ℚ) (h : 0 ≤ q) : pyTrunc q = ⌊q⌋ := if_pos h

/-- C4: every `TTCommand1` reply produced by `DataPolicy.evaluate` has
`command = 32`, `time_slot_length = 60`, `unknown = 0`, `time_slot` left at
the 0 placeholder, `sleep_interval ≥ SLEEP_TIME_MIN`, and
`heating = floor(sleep_interval / 6)`; and if any of the gravity,
stem-temperature or air-temperature anomalies was raised for the packet,
`sleep_interval = SLEEP_TIME_MIN = 300` and hence `heating = 50`. -/
theorem evaluate_reply_shape (self : DataPolicy) (env : InfluxEnv) (packet : DataPacket)
    (cmd : TTCommand1) (self2 : DataPolicy)
    (h : self.evaluate env packet = .ok (cmd, self2)) :
    cmd.command = 32 ∧ cmd.time_slot_length = TIME_SLOT_LENGTH ∧ cmd.unknown = 0 ∧
      cmd.time_slot = 0 ∧
      SLEEP_TIME_MIN ≤ cmd.sleep_interval ∧
      cmd.heating = ⌊(cmd.sleep_interval : ℚ) / 6⌋ ∧
      ((self2.evaluate_gravity env packet = .ok true ∨
        self2.evaluate_stem_temperature env packet = .ok true ∨
        evaluate_air_temperature packet = true) →
        cmd.sleep_interval = SLEEP_TIME_MIN ∧ cmd.heating = 50) := by
  unfold DataPolicy.evaluate at h
  rcases hbs : self.evaluate_battery_dispatch env packet with e | bs
  · rw [hbs, bind_error_eq] at h; exact absurd h (by simp)
  · rw [hbs, bind_ok_eq] at h
    simp only [] at h
    rcases hg : bs.2.evaluate_gravity env packet with e | ga
    · rw [hg, bind_error_eq] at h; exact absurd h (by simp)
    · rw [hg, bind_ok_eq] at h
      rcases hs : bs.2.evaluate_stem_temperature env packet with e | sa
      · rw [hs, bind_error_eq] at h; exact absurd h (by simp)
      · rw [hs, bind_ok_eq] at h
        simp only [Except.ok.injEq, Prod.mk.injEq] at h
        obtain ⟨hcmd, hself⟩ := h
        subst hself
        subst hcmd
        have hge : SLEEP_TIME_MIN ≤
            (if (ga || sa || evaluate_air_temperature packet) = true
              then SLEEP_TIME_MIN else max bs.1 SLEEP_TIME_MIN) := by
          split_ifs with hc
          · exact le_refl _
          · exact le_max_right _ _
        refine ⟨rfl, rfl, rfl, rfl, hge, ?_, ?_⟩
        · have h0 : (0 : ℚ) ≤
              ((if (ga || sa || evaluate_air_temperature packet) = true
                then SLEEP_TIME_MIN else max bs.1 SLEEP_TIME_MIN : ℤ) : ℚ) / 6 := by
            apply div_nonneg _ (by norm_num)
            have h1 : (0 : ℤ) ≤
                (if (ga || sa || evaluate_air_temperature packet) = true
                  then SLEEP_TIME_MIN else max bs.1 SLEEP_TIME_MIN) :=
              le_trans (by norm_num [SLEEP_TIME_MIN]) hge
            exact_mod_cast h1
          exact pyTrunc_eq_floor _ h0
        · intro hanom
          have hcond : (ga || sa || evaluate_air_temperature packet) = true := by
            rcases hanom with ha | ha | ha
            · rw [hg] at ha
              simp only [Except.ok.injEq] at ha
              simp [ha]
            · rw [hs] at ha
              simp only [Except.ok.injEq] at ha
              simp [ha]
            · simp [ha]
          constructor
          · simp only [hcond, if_pos]
          · show pyTrunc _ = 50
            simp only [hcond, if_pos]
            norm_num [pyTrunc, SLEEP_TIME_MIN]

/-- C4 witness: a concrete Rev31 packet evaluated against empty histories
and no baselines satisfies the hypothesis and all reply-shape conclusions. -/
theorem evaluate_reply_shape_witness :
    policyNoBaseline.evaluate envEmptyHistory (.rev31 rev31Sample) =
      .ok (cmdW, policyNoBaseline) ∧
    (cmdW.command = 32 ∧ cmdW.time_slot_length = TIME_SLOT_LENGTH ∧ cmdW.unknown = 0 ∧
      cmdW.time_slot = 0 ∧ SLEEP_TIME_MIN ≤ cmdW.sleep_interval ∧
      cmdW.heating = ⌊(cmdW.sleep_interval : ℚ) / 6⌋ ∧
      ((policyNoBaseline.evaluate_gravity envEmptyHistory (.rev31 rev31Sample) = .ok true ∨
        policyNoBaseline.evaluate_stem_temperature envEmptyHistory (.rev31 rev31Sample) =
          .ok true ∨
        evaluate_air_temperature (.rev31 rev31Sample) = true) →
        cmdW.sleep_interval = SLEEP_TIME_MIN ∧ cmdW.heating = 50)) := by
  have hW : policyNoBaseline.evaluate envEmptyHistory (.rev31 rev31Sample) =
      .ok (cmdW, policyNoBaseline) := by
    norm_num [DataPolicy.evaluate, DataPolicy.evaluate_battery_dispatch,
      DataPolicy.evaluate_battery_3_1, DataPolicy.evaluate_battery,
      compute_battery_voltage_rev_3_1, DataPolicy.evaluate_gravity,
      DataPolicy.evaluate_stem_temperature, evaluate_air_temperature,
      DataPacket.air_temperature, DataPacket.sender_address, policyNoBaseline,
      envEmptyHistory, rev31Sample, cmdW, bind_ok_eq, bind_error_eq, pyTrunc,
      SLEEP_TIME_MIN, SLEEP_TIME_DEFAULT, TIME_SLOT_LENGTH, CRITICAL_TEMPERATURE]
  exact ⟨hW, evaluate_reply_shape policyNoBaseline envEmptyHistory (.rev31 rev31Sample)
    cmdW policyNoBaseline hW⟩

/-- C5: `_evaluate_stem_temperature` on a `DataPacketRev32` raises
`AttributeError` as soon as a temperature baseline has been received: it
reads the Rev31-only attributes `temperature_reference_cold` /
`temperature_heat_cold` / … which `DataPacketRev32` does not have. -/
theorem stem_temperature_rev32_attribute_error (self : DataPolicy) (env : InfluxEnv)
    (p : DataPacketRev32) (agg : TemperatureAgg)
    (hagg : self.aggregated_temperature = some agg) :
    self.evaluate_stem_temperature env (.rev32 p) = .error .attributeError := by
  unfold DataPolicy.evaluate_stem_temperature
  rw [hagg]
  rfl

/-- C5 witness: the sample Rev32 packet under a received temperature
baseline. -/
theorem stem_temperature_rev32_attribute_error_witness :
    DataPolicy.evaluate_stem_temperature policyWithTemperatureBaseline envEmptyHistory
      (.rev32 SAMPLE_DataPacket) = .error .attributeError :=
  stem_temperature_rev32_attribute_error policyWithTemperatureBaseline envEmptyHistory
    SAMPLE_DataPacket { stdev_delta_cold := 0, stdev_delta_hot := 0 } rfl

/-- C6 counterexample: the movement baseline has been received (all-zero
mean/stdev) and the packet's derivative triple deviates (the movement check
in isolation returns true), yet with an empty per-talker gravity history
the gravity evaluation — the only caller of the movement check — returns
false, so no movement anomaly is raised. -/
theorem movement_skipped_without_history :
    DataPolicy.evaluate_movement policyWithMovementBaseline (.rev32 SAMPLE_DataPacket) = true ∧
    DataPolicy.evaluate_gravity policyWithMovementBaseline envEmptyHistory
      (.rev32 SAMPLE_DataPacket) = .ok false := by
  constructor
  · have hz : |((-803 : ℤ) : ℚ) - 0| > 0 * CONFIDENCE := by
      push_cast
      rw [sub_zero, abs_neg, abs_of_nonneg (by norm_num)]
      norm_num [CONFIDENCE]
    simp [DataPolicy.evaluate_movement, policyWithMovementBaseline, baselineZero,
      DataPacket.gravity_x_derivation, DataPacket.gravity_y_derivation,
      DataPacket.gravity_z_derivation, SAMPLE_DataPacket, hz]
  · simp [DataPolicy.evaluate_gravity, envEmptyHistory]

/-- C6 amended: the movement check runs only when the talker's gravity
history is non-empty.  Given a non-empty gravity history (and a defined
position evaluation), a packet whose derivative triple deviates from the
received baseline is flagged; with an empty history no gravity anomaly is
raised; and with no baseline the movement check never flags. -/
theorem movement_requires_history (self : DataPolicy) (env : InfluxEnv) (packet : DataPacket) :
    (∀ rows pos, env.gravityQuery = .ok rows → rows.isEmpty = false →
      DataPolicy.evaluate_position packet (rows.map (fun r => r.x_mean))
        (rows.map (fun r => r.y_mean)) (rows.map (fun r => r.z_mean)) = .ok pos →
      self.evaluate_movement packet = true →
      self.evaluate_gravity env packet = .ok true) ∧
    (env.gravityQuery = .ok [] → self.evaluate_gravity env packet = .ok false) ∧
    (self.aggregated_movement = none → self.evaluate_movement packet = false) := by
  refine ⟨?_, ?_, ?_⟩
  · intro rows pos hq hne hpos hmov
    unfold DataPolicy.evaluate_gravity
    rw [hq]
    simp only [hne, Bool.false_eq_true, if_false]
    rw [hpos, bind_ok_eq, hmov]
    simp
  · intro hq
    unfold DataPolicy.evaluate_gravity
    rw [hq]
    rfl
  · intro hnone
    unfold DataPolicy.evaluate_movement
    rw [hnone]

/-- C6 amended witness: two all-zero history rows plus the deviating sample
packet flag the anomaly; the empty history and the missing baseline give
the two negative conclusions. -/
theorem movement_requires_history_witness :
    DataPolicy.evaluate_gravity policyWithMovementBaseline envTwoGravityRows
      (.rev32 SAMPLE_DataPacket) = .ok true ∧
    DataPolicy.evaluate_gravity policyWithMovementBaseline envEmptyHistory
      (.rev32 SAMPLE_DataPacket) = .ok false ∧
    DataPolicy.evaluate_movement policyNoBaseline (.rev32 SAMPLE_DataPacket) = false := by
  have hz : |((-803 : ℤ) : ℚ) - 0| > 0 * CONFIDENCE := by
    push_cast
    rw [sub_zero, abs_neg, abs_of_nonneg (by norm_num)]
    norm_num [CONFIDENCE]
  have hmov : DataPolicy.evaluate_movement policyWithMovementBaseline
      (.rev32 SAMPLE_DataPacket) = true := by
    simp [DataPolicy.evaluate_movement, policyWithMovementBaseline, baselineZero,
      DataPacket.gravity_x_derivation, DataPacket.gravity_y_derivation,
      DataPacket.gravity_z_derivation, SAMPLE_DataPacket, hz]
  have hpos : DataPolicy.evaluate_position (.rev32 SAMPLE_DataPacket)
      (([{ x_mean := 0, y_mean := 0, z_mean := 0 },
         { x_mean := 0, y_mean := 0, z_mean := 0 }] : List GravityRow).map
        (fun r => r.x_mean))
      (([{ x_mean := 0, y_mean := 0, z_mean := 0 },
         { x_mean := 0, y_mean := 0, z_mean := 0 }] : List GravityRow).map
        (fun r => r.y_mean))
      (([{ x_mean := 0, y_mean := 0, z_mean := 0 },
         { x_mean := 0, y_mean := 0, z_mean := 0 }] : List GravityRow).map
        (fun r => r.z_mean)) = .ok true := by
    have hy : ((3986 : ℤ) : ℚ) ^ 2 > CONFIDENCE ^ 2 * 0 := by
      push_cast
      norm_num [CONFIDENCE]
    simp [DataPolicy.evaluate_position, pyMean, pyStdevSq, bind_ok_eq, sigmaExceeds,
      DataPacket.gravity_x_mean, DataPacket.gravity_y_mean, DataPacket.gravity_z_mean,
      SAMPLE_DataPacket]
  refine ⟨?_, ?_, ?_⟩
  · exact (movement_requires_history policyWithMovementBaseline envTwoGravityRows
      (.rev32 SAMPLE_DataPacket)).1
      [{ x_mean := 0, y_mean := 0, z_mean := 0 }, { x_mean := 0, y_mean := 0, z_mean := 0 }]
      true rfl rfl hpos hmov
  · exact (movement_requires_history policyWithMovementBaseline envEmptyHistory
      (.rev32 SAMPLE_DataPacket)).2.1 rfl
  · exact (movement_requires_history policyNoBaseline envEmptyHistory
      (.rev32 SAMPLE_DataPacket)).2.2 rfl

/-- C10: both battery-voltage conversions divide by a packet-supplied value
with no guard: they are defined exactly when `adc_bandgap ≠ 0` (Rev3.2)
resp. `voltage ≠ 0` (Rev3.1), raising `ZeroDivisionError` on zero; the
battery evaluation and the observation-row expansion `to_influx_json`
inherit this precondition. -/
theorem battery_voltage_division_guard :
    (∀ a b : ℕ, b ≠ 0 → ∃ v, compute_battery_voltage_rev_3_2 a b = .ok v) ∧
    (∀ a : ℕ, compute_battery_voltage_rev_3_2 a 0 = .error .zeroDivisionError) ∧
    (∀ v : ℕ, v ≠ 0 → ∃ q, compute_battery_voltage_rev_3_1 v = .ok q) ∧
    (compute_battery_voltage_rev_3_1 0 = .error .zeroDivisionError) ∧
    (∀ p : DataPacketRev32, p.adc_bandgap = 0 →
      p.to_influx_json = .error .zeroDivisionError ∧
      ∀ self env, DataPolicy.evaluate_battery_3_2 self env p = .error .zeroDivisionError) ∧
    (∀ p : DataPacketRev31, p.voltage = 0 →
      p.to_influx_json = .error .zeroDivisionError ∧
      ∀ self env, DataPolicy.evaluate_battery_3_1 self env p = .error .zeroDivisionError) ∧
    (∀ p : DataPacketRev32, p.adc_bandgap ≠ 0 → ∃ rows, p.to_influx_json = .ok rows) ∧
    (∀ p : DataPacketRev31, p.voltage ≠ 0 → ∃ rows, p.to_influx_json = .ok rows) := by
  have h32ok : ∀ a b : ℕ, b ≠ 0 →
      compute_battery_voltage_rev_3_2 a b =
        .ok (2 * mV_BANDGAP * ((a : ℚ) / (b : ℚ))) := by
    intro a b hb
    unfold compute_battery_voltage_rev_3_2
    rw [if_neg hb]
  have h31ok : ∀ v : ℕ, v ≠ 0 →
      compute_battery_voltage_rev_3_1 v = .ok (650 + 131072 * (1100 / (v : ℚ))) := by
    intro v hv
    unfold compute_battery_voltage_rev_3_1
    rw [if_neg hv]
  have h32err : ∀ a : ℕ, compute_battery_voltage_rev_3_2 a 0 = .error .zeroDivisionError :=
    fun a => rfl
  refine ⟨fun a b hb => ⟨_, h32ok a b hb⟩, h32err, fun v hv => ⟨_, h31ok v hv⟩, rfl,
    ?_, ?_, ?_, ?_⟩
  · intro p hp
    constructor
    · unfold DataPacketRev32.to_influx_json
      rw [hp, h32err, bind_error_eq]
    · intro self env
      unfold DataPolicy.evaluate_battery_3_2
      rw [hp, h32err, bind_error_eq]
  · intro p hp
    constructor
    · unfold DataPacketRev31.to_influx_json
      rw [hp]
      rfl
    · intro self env
      unfold DataPolicy.evaluate_battery_3_1
      rw [hp]
      rfl
  · intro p hp
    cases hjson : p.to_influx_json with
    | ok rows => exact ⟨rows, rfl⟩
    | error e =>
      exfalso
      unfold DataPacketRev32.to_influx_json at hjson
      rw [h32ok _ _ hp, bind_ok_eq] at hjson
      exact absurd hjson (by simp)
  · intro p hp
    cases hjson : p.to_influx_json with
    | ok rows => exact ⟨rows, rfl⟩
    | error e =>
      exfalso
      unfold DataPacketRev31.to_influx_json at hjson
      rw [h31ok _ hp, bind_ok_eq] at hjson
      exact absurd hjson (by simp)

/-- C10 witness: the guard theorem instantiated at the sample packets and
their zeroed variants. -/
theorem battery_voltage_division_guard_witness :
    (∃ v, compute_battery_voltage_rev_3_2 82757 43585 = .ok v) ∧
    compute_battery_voltage_rev_3_2 82757 0 = .error .zeroDivisionError ∧
    rev32ZeroBandgap.to_influx_json = .error .zeroDivisionError ∧
    rev31ZeroVoltage.to_influx_json = .error .zeroDivisionError ∧
    (∃ rows, SAMPLE_DataPacket.to_influx_json = .ok rows) :=
  ⟨battery_voltage_division_guard.1 82757 43585 (by decide),
   battery_voltage_division_guard.2.1 82757,
   (battery_voltage_division_guard.2.2.2.2.1 rev32ZeroBandgap (by decide)).1,
   (battery_voltage_division_guard.2.2.2.2.2.1 rev31ZeroVoltage (by decide)).1,
   battery_voltage_division_guard.2.2.2.2.2.2.1 SAMPLE_DataPacket (by decide)⟩

/-! ### Coordinator theorems -/

/-- `List.lookup` over an `ℕ`-keyed assoc list, spelled with `if`. -/
theorem lookup_cons {b : Type} (k t : ℕ) (v : b) (l : List (ℕ × b)) :
    ((k, v) :: l).lookup t = if t = k then some v else l.lookup t := by
  by_cases h : t = k
  · simp [List.lookup, h]
  · have hbeq : (t == k) = false := beq_eq_false_iff_ne.mpr h
    simp [List.lookup, h, hbeq]

/-- `on_message` never removes or changes an existing assignment. -/
theorem on_message_keeps (s : Assignments) (r : HeloRequest) (t g : ℕ)
    (h : s.lookup t = some g) : (Coordinator.on_message s r).1.lookup t = some g := by
  unfold Coordinator.on_message
  cases hl : s.lookup r.tt_address with
  | none =>
    simp only [lookup_cons]
    split_ifs with ht
    · rw [ht] at h; rw [h] at hl; cases hl
    · exact h
  | some g2 => exact h

/-- A whole run never removes or changes an existing assignment. -/
theorem run_keeps (rs : List HeloRequest) (s : Assignments) (t g : ℕ)
    (h : s.lookup t = some g) : (Coordinator.run s rs).lookup t = some g := by
  induction rs generalizing s with
  | nil => exact h
  | cons r rest ih => exact ih _ (on_message_keeps s r t g h)

/-- Requests about other talkers never create an assignment for `t`. -/
theorem run_lookup_none (rs : List HeloRequest) (s : Assignments) (t : ℕ)
    (hs : s.lookup t = none) (hrs : ∀ q ∈ rs, q.tt_address ≠ t) :
    (Coordinator.run s rs).lookup t = none := by
  induction rs generalizing s with
  | nil => exact hs
  | cons r rest ih =>
    refine ih _ ?_ (fun q hq => hrs q (List.mem_cons_of_mem r hq))
    unfold Coordinator.on_message
    cases hl : s.lookup r.tt_address with
    | none =>
      simp only [lookup_cons]
      rw [if_neg (fun ht => hrs r (List.mem_cons_self r rest) ht.symm)]
      exact hs
    | some g2 => exact hs

/-- `run` distributes over append. -/
theorem run_append (l1 l2 : List HeloRequest) (s : Assignments) :
    Coordinator.run s (l1 ++ l2) = Coordinator.run (Coordinator.run s l1) l2 := by
  induction l1 generalizing s with
  | nil => rfl
  | cons r rest ih => exact ih _

/-- C7: the first `helo/request` naming talker `t` (no request in `pre`
names it) is answered `{t, connect=true}` on the claiming gateway's topic
and records that gateway; after arbitrarily many further requests the
assignment is unchanged, and any later request naming `t` is answered
`connect = (assignment == its gateway)` — true exactly for the original
winner. -/
theorem coordinator_monotone (pre mid : List HeloRequest) (r q : HeloRequest)
    (hpre : ∀ x ∈ pre, x.tt_address ≠ r.tt_address)
    (hq : q.tt_address = r.tt_address) :
    (Coordinator.on_message (Coordinator.run [] pre) r).2 =
      { topic_gateway := r.cloud_address, tt_address := r.tt_address, connect := true } ∧
    (Coordinator.run [] (pre ++ r :: mid)).lookup r.tt_address = some r.cloud_address ∧
    (Coordinator.on_message (Coordinator.run [] (pre ++ r :: mid)) q).2 =
      { topic_gateway := q.cloud_address, tt_address := q.tt_address,
        connect := r.cloud_address == q.cloud_address } := by
  have hnone : (Coordinator.run ([] : Assignments) pre).lookup r.tt_address = none :=
    run_lookup_none pre [] r.tt_address rfl hpre
  have hstep : (Coordinator.on_message (Coordinator.run [] pre) r).1.lookup r.tt_address =
      some r.cloud_address := by
    unfold Coordinator.on_message
    rw [hnone]
    simp [lookup_cons]
  have hassigned : (Coordinator.run [] (pre ++ r :: mid)).lookup r.tt_address =
      some r.cloud_address := by
    rw [run_append]
    show (Coordinator.run (Coordinator.on_message (Coordinator.run [] pre) r).1 mid).lookup
      r.tt_address = some r.cloud_address
    exact run_keeps mid _ _ _ hstep
  refine ⟨?_, hassigned, ?_⟩
  · unfold Coordinator.on_message
    rw [hnone]
  · unfold Coordinator.on_message
    rw [hq, hassigned]

/-- C7 witness: gateway 10 claims talker 7 first and is accepted; after a
claim by gateway 20 in between, gateway 20's renewed claim is refused and
gateway 10's is accepted, and the assignment still maps 7 to 10. -/
theorem coordinator_monotone_witness :
    (Coordinator.on_message (Coordinator.run [] []) { cloud_address := 10, tt_address := 7 }).2 =
      { topic_gateway := 10, tt_address := 7, connect := true } ∧
    (Coordinator.run []
        ([] ++ { cloud_address := 10, tt_address := 7 } ::
          [{ cloud_address := 20, tt_address := 7 }])).lookup 7 = some 10 ∧
    (Coordinator.on_message
        (Coordinator.run []
          ([] ++ { cloud_address := 10, tt_address := 7 } ::
            [{ cloud_address := 20, tt_address := 7 }]))
        { cloud_address := 20, tt_address := 7 }).2 =
      { topic_gateway := 20, tt_address := 7, connect := (10 == 20) } :=
  coordinator_monotone [] [{ cloud_address := 20, tt_address := 7 }]
    { cloud_address := 10, tt_address := 7 } { cloud_address := 20, tt_address := 7 }
    (by intro x hx; cases hx) rfl

/-! ### Time-slot allocation theorems -/

/-- Registering another talker never changes an assigned slot. -/
theorem add_tt_keeps (s : LDEState) (b a k : ℕ)
    (h : s.connected_clients.lookup a = some k) :
    (LDE.add_tt_to_connected s b).connected_clients.lookup a = some k := by
  unfold LDE.add_tt_to_connected
  cases hl : s.connected_clients.lookup b with
  | some v => exact h
  | none =>
    simp only [lookup_cons]
    split_ifs with ht
    · rw [ht] at h; rw [h] at hl; cases hl
    · exact h

/-- Any later registration sequence keeps an assigned slot. -/
theorem register_all_keeps (events : List ℕ) (s : LDEState) (a k : ℕ)
    (h : s.connected_clients.lookup a = some k) :
    (LDE.register_all s events).connected_clients.lookup a = some k := by
  induction events generalizing s with
  | nil => exact h
  | cons b rest ih => exact ih _ (add_tt_keeps s b a k h)

/-- C8: the counter starts at 1; a talker's first registration assigns the
current counter value and increments the counter; a repeated registration
is a no-op; once assigned, the slot copied into every later `Command1`
(after arbitrarily many further registrations) equals the first; and a
never-registered talker is served `time_slot = 0`. -/
theorem time_slot_allocation (s : LDEState) (a k : ℕ) (events : List ℕ) :
    LDE.init.time_slot = 1 ∧
    (s.connected_clients.lookup a = none →
      (LDE.add_tt_to_connected s a).connected_clients.lookup a = some s.time_slot ∧
      (LDE.add_tt_to_connected s a).time_slot = s.time_slot + 1) ∧
    (s.connected_clients.lookup a = some k → LDE.add_tt_to_connected s a = s) ∧
    (s.connected_clients.lookup a = some k →
      LDE.on_data_time_slot (LDE.register_all s events) a = k) ∧
    (s.connected_clients.lookup a = none → LDE.on_data_time_slot s a = 0) := by
  refine ⟨rfl, ?_, ?_, ?_, ?_⟩
  · intro h
    unfold LDE.add_tt_to_connected
    rw [h]
    simp [lookup_cons]
  · intro h
    unfold LDE.add_tt_to_connected
    rw [h]
  · intro h
    unfold LDE.on_data_time_slot
    rw [register_all_keeps events s a k h]
    rfl
  · intro h
    unfold LDE.on_data_time_slot
    rw [h]
    rfl

/-- C8 witness: from the initial state, talker 7 gets slot 1; re-registering
it (with talker 8 registered in between) leaves the slot at 1 in the data
reply; an unregistered talker gets the 0 sentinel. -/
theorem time_slot_allocation_witness :
    LDE.init.time_slot = 1 ∧
    ((LDE.add_tt_to_connected LDE.init 7).connected_clients.lookup 7 =
        some LDE.init.time_slot ∧
      (LDE.add_tt_to_connected LDE.init 7).time_slot = LDE.init.time_slot + 1) ∧
    LDE.on_data_time_slot
      (LDE.register_all (LDE.add_tt_to_connected LDE.init 7) [8, 7]) 7 = 1 ∧
    LDE.on_data_time_slot LDE.init 7 = 0 :=
  ⟨(time_slot_allocation LDE.init 7 0 []).1,
   (time_slot_allocation LDE.init 7 0 []).2.1 (by decide),
   (time_slot_allocation (LDE.add_tt_to_connected LDE.init 7) 7 1 [8, 7]).2.2.2.1
     (by decide),
   (time_slot_allocation LDE.init 7 0 []).2.2.2.2 (by decide)⟩

/-! ### Aggregator theorems -/

/-- C9 counterexample: with exactly one movement-derivative row in the
window the aggregation raises `StatisticsError` (from `stdev` on a single
point) instead of publishing — so "at least one point per axis" does not
suffice for a publish, and the cycle does not complete. -/
theorem aggregate_movement_single_row :
    Aggregator.aggregate_movement
        (.ok [{ x_derivation := 0, y_derivation := 0, z_derivation := 0 }]) =
      .error .statisticsError := rfl

/-- C9 amended: with at least two rows the aggregation succeeds and
publishes the six-key `global/movement` dict (keys `mean_x, stdev_x,
mean_y, stdev_y, mean_z, stdev_z` in order); with zero rows, or a failed
query, it returns the empty dict and publication is skipped (the cycle
completing in both cases); with exactly one row it raises
`StatisticsError`. -/
theorem aggregate_movement_spec (rows : List GravityDerivRow) :
    (2 ≤ rows.length → ∃ l, Aggregator.aggregate_movement (.ok rows) = .ok l ∧
      l.map Prod.fst = ["mean_x", "stdev_x", "mean_y", "stdev_y", "mean_z", "stdev_z"] ∧
      Aggregator.publishes_movement l = true) ∧
    (Aggregator.aggregate_movement (.ok []) = .ok [] ∧
      Aggregator.publishes_movement [] = false) ∧
    (Aggregator.aggregate_movement (.error ()) = .ok []) ∧
    (rows.length = 1 →
      Aggregator.aggregate_movement (.ok rows) = .error .statisticsError) := by
  refine ⟨?_, ⟨rfl, rfl⟩, rfl, ?_⟩
  · intro h2
    match rows, h2 with
    | r1 :: r2 :: rest, _ =>
      obtain ⟨mx, hmx⟩ : ∃ m, pyMean ((r1 :: r2 :: rest).map (fun r => r.x_derivation)) =
          .ok m := ⟨_, by unfold pyMean; rw [if_neg (by simp)]⟩
      obtain ⟨vx, hvx⟩ : ∃ v, pyStdevSq ((r1 :: r2 :: rest).map (fun r => r.x_derivation)) =
          .ok v := ⟨_, by unfold pyStdevSq; rw [if_neg (by simp)]⟩
      obtain ⟨my, hmy⟩ : ∃ m, pyMean ((r1 :: r2 :: rest).map (fun r => r.y_derivation)) =
          .ok m := ⟨_, by unfold pyMean; rw [if_neg (by simp)]⟩
      obtain ⟨vy, hvy⟩ : ∃ v, pyStdevSq ((r1 :: r2 :: rest).map (fun r => r.y_derivation)) =
          .ok v := ⟨_, by unfold pyStdevSq; rw [if_neg (by simp)]⟩
      obtain ⟨mz, hmz⟩ : ∃ m, pyMean ((r1 :: r2 :: rest).map (fun r => r.z_derivation)) =
          .ok m := ⟨_, by unfold pyMean; rw [if_neg (by simp)]⟩
      obtain ⟨vz, hvz⟩ : ∃ v, pyStdevSq ((r1 :: r2 :: rest).map (fun r => r.z_derivation)) =
          .ok v := ⟨_, by unfold pyStdevSq; rw [if_neg (by simp)]⟩
      simp only [Aggregator.aggregate_movement, List.map_cons, List.isEmpty_cons,
        Bool.or_self, Bool.false_eq_true, if_false]
      rw [show ((r1 :: r2 :: rest).map (fun r => r.x_derivation)) =
        r1.x_derivation :: r2.x_derivation :: rest.map (fun r => r.x_derivation) from rfl] at hmx hvx
      rw [show ((r1 :: r2 :: rest).map (fun r => r.y_derivation)) =
        r1.y_derivation :: r2.y_derivation :: rest.map (fun r => r.y_derivation) from rfl] at hmy hvy
      rw [show ((r1 :: r2 :: rest).map (fun r => r.z_derivation)) =
        r1.z_derivation :: r2.z_derivation :: rest.map (fun r => r.z_derivation) from rfl] at hmz hvz
      rw [hmx, bind_ok_eq, hvx, bind_ok_eq, hmy, bind_ok_eq, hvy, bind_ok_eq,
        hmz, bind_ok_eq, hvz, bind_ok_eq]
      exact ⟨_, rfl, by simp, rfl⟩
  · intro h1
    match rows, h1 with
    | [r], _ =>
      simp [Aggregator.aggregate_movement, pyMean, pyStdevSq, bind_ok_eq, bind_error_eq]

/-- C9 amended witness: two rows publish the six keys; the degenerate cases
are closed instances of the same theorem. -/
theorem aggregate_movement_spec_witness :
    (∃ l, Aggregator.aggregate_movement
        (.ok [{ x_derivation := 0, y_derivation := 0, z_derivation := 0 },
              { x_derivation := 1, y_derivation := 1, z_derivation := 1 }]) = .ok l ∧
      l.map Prod.fst = ["mean_x", "stdev_x", "mean_y", "stdev_y", "mean_z", "stdev_z"] ∧
      Aggregator.publishes_movement l = true) ∧
    Aggregator.aggregate_movement (.ok ([] : List GravityDerivRow)) = .ok [] ∧
    Aggregator.aggregate_movement
        (.ok [{ x_derivation := 2, y_derivation := 2, z_derivation := 2 }]) =
      .error .statisticsError :=
  ⟨(aggregate_movement_spec
      [{ x_derivation := 0, y_derivation := 0, z_derivation := 0 },
       { x_derivation := 1, y_derivation := 1, z_derivation := 1 }]).1 (by decide),
   (aggregate_movement_spec []).2.1.1,
   (aggregate_movement_spec
      [{ x_derivation := 2, y_derivation := 2, z_derivation := 2 }]).2.2.2 (by decide)⟩

end TTT
